import Mathlib

/-!
Verification development for the MDK CMI level-script interpreter.

The repository contains three iterations of the same decoder/interpreter:

* `src/cmi_interp/cmi.ts` — a decode-only interpreter driven by a 256-entry
  opcode schema table, with a per-invocation instruction-count guard and a
  callstack-depth guard, and a per-arena four-pass execution driver
  (namespace `Cmi` below);
* `src/unnamed/part_000` — the full simulation iteration with modeled opcodes
  (variable resolver, delays, spawning of plain/door/pickup entities, door
  state), driven by ten tick passes over every entity (namespace `P0` below).

Byte buffers are modeled as a size plus a byte-lookup function (a JS
`DataView`); every read is bounds-checked and the JS exceptions thrown by
`assert` and by out-of-bounds reads are modeled with an explicit error type.
JS numbers appearing in scripts (32-bit floats and their arithmetic) are
modeled as rationals; finite IEEE-754 binary32 values decode exactly, and the
non-finite encodings (exponent 255: NaN and the infinities), which no claim
touches, are mapped to 0.
-/

/-- A byte buffer with explicit size: the model of a JS `DataView`.
`byteAt` is reduced mod 256 at each read, since a `DataView` read always
yields a byte. -/
structure Buf where
  size : Nat
  byteAt : Nat → Nat

/-- Errors: out-of-bounds reads (JS `RangeError` from `DataView`), failed
`assert` calls (JS `Error` with the given message), a JS `TypeError`
(property access on `undefined`), and exhaustion of the explicit fuel that
makes the embedding total where the source could diverge. -/
inductive RErr where
  | oob
  | assertFail (msg : String)
  | typeError
  | fuel
  deriving DecidableEq

/-- Build a buffer from a concrete list of bytes. -/
def bufOf (l : List Nat) : Buf :=
  { size := l.length, byteAt := fun i => l.getD i 0 }

/-- One byte of the buffer (always < 256). -/
def get8 (b : Buf) (o : Nat) : Nat := b.byteAt o % 256

/-- Reader.u8: read one unsigned byte, returning the value and the new
cursor offset. -/
def ru8 (b : Buf) (o : Nat) : Except RErr (Nat × Nat) :=
  if o + 1 ≤ b.size then .ok (get8 b o, o + 1) else .error .oob

/-- Reader.u16: little-endian 16-bit unsigned read. -/
def ru16 (b : Buf) (o : Nat) : Except RErr (Nat × Nat) :=
  if o + 2 ≤ b.size then .ok (get8 b o + 256 * get8 b (o + 1), o + 2) else .error .oob

/-- The little-endian 32-bit value starting at offset `o` (no bounds check;
used by the checked readers below). -/
def le32 (b : Buf) (o : Nat) : Nat :=
  get8 b o + 256 * get8 b (o + 1) + 65536 * get8 b (o + 2) + 16777216 * get8 b (o + 3)

/-- Reader.u32: little-endian 32-bit unsigned read. -/
def ru32 (b : Buf) (o : Nat) : Except RErr (Nat × Nat) :=
  if o + 4 ≤ b.size then .ok (le32 b o, o + 4) else .error .oob

/-- Reader.i32: little-endian 32-bit signed read (two's complement). -/
def ri32 (b : Buf) (o : Nat) : Except RErr (Int × Nat) :=
  if o + 4 ≤ b.size then
    .ok (if le32 b o < 2 ^ 31 then (le32 b o : Int) else (le32 b o : Int) - 2 ^ 32, o + 4)
  else .error .oob

/-- Exact rational value of an IEEE-754 binary32 bit pattern. Finite values
decode exactly; exponent-255 patterns (NaN, infinities) are not rational and
are mapped to 0 — no claim in this development depends on them. -/
def f32ToRat (bits : Nat) : ℚ :=
  let sign : Nat := bits / 2 ^ 31 % 2
  let expo : Nat := bits / 2 ^ 23 % 256
  let frac : Nat := bits % 2 ^ 23
  let sgn : ℚ := if sign = 1 then -1 else 1
  if expo = 0 then sgn * (frac : ℚ) / 2 ^ 149
  else if expo = 255 then 0
  else sgn * (2 ^ 23 + frac : ℚ) * (2 : ℚ) ^ ((expo : Int) - 150)

/-- Reader.f32: little-endian 32-bit float read, decoded to a rational. -/
def rf32 (b : Buf) (o : Nat) : Except RErr (ℚ × Nat) :=
  if o + 4 ≤ b.size then .ok (f32ToRat (le32 b o), o + 4) else .error .oob

/-- Reader.vec3: three consecutive little-endian floats at `o`, `o+4`, `o+8`;
the cursor advances by 12. As in the source, the three reads are
bounds-checked (an out-of-bounds read of any component raises the same
error, so a single combined check is equivalent). -/
def rvec3 (b : Buf) (o : Nat) : Except RErr ((ℚ × ℚ × ℚ) × Nat) :=
  if o + 12 ≤ b.size then
    .ok ((f32ToRat (le32 b o), f32ToRat (le32 b (o + 4)), f32ToRat (le32 b (o + 8))), o + 12)
  else .error .oob

/-- The NUL-padding check of Reader.str: the `n` bytes starting at `o` must
all be zero. -/
def rstrZeros (b : Buf) : Nat → Nat → Except RErr Unit
  | _, 0 => .ok ()
  | o, n + 1 => do
    let (c, _) ← ru8 b o
    if c = 0 then rstrZeros b (o + 1) n
    else .error (.assertFail "assert failed")

/-- The byte-collecting loop of Reader.str: read up to `n` bytes starting at
`o`; a NUL stops collection and every remaining byte up to the declared
length must also be NUL; every collected byte must be printable ASCII. -/
def rstrLoop (b : Buf) : Nat → Nat → Except RErr (List Nat)
  | _, 0 => .ok []
  | o, n + 1 => do
    let (c, _) ← ru8 b o
    if c = 0 then do
      let _ ← rstrZeros b (o + 1) n
      .ok []
    else if 32 ≤ c ∧ c < 127 then do
      let rest ← rstrLoop b (o + 1) n
      .ok (c :: rest)
    else .error (.assertFail "string not ascii!")

/-- Reader.str(n): fixed-length NUL-padded printable-ASCII string; the
cursor always advances by exactly `n`. -/
def rstr (b : Buf) (o n : Nat) : Except RErr (List Nat × Nat) := do
  let s ← rstrLoop b o n
  .ok (s, o + n)

/-- Reader.pstr: a 1-byte length followed by that many string bytes. -/
def rpstr (b : Buf) (o : Nat) : Except RErr (List Nat × Nat) := do
  let (n, o₁) ← ru8 b o
  rstr b o₁ n

/-- Decimal digit bytes of a natural number, as JS number-to-string
conversion produces for integers. -/
def natDecBytes (n : Nat) : List Nat := (Nat.toDigits 10 n).map Char.toNat

/-- Decimal byte rendering of an integer (with a leading `-` for negative
values), as in a JS template literal. -/
def intDecBytes (i : Int) : List Nat :=
  if i < 0 then 45 :: natDecBytes i.natAbs else natDecBytes i.toNat

/-- First-match association-list lookup, the model of JS `Map.get` (a `Map`
built by `set` keeps keys unique, in insertion order). -/
def alistGet {α : Type} : List (List Nat × α) → List Nat → Option α
  | [], _ => none
  | (k₁, v) :: rest, k => if k₁ = k then some v else alistGet rest k

/-- JS `Map.set`: replace the value at an existing key in place, otherwise
append the new entry at the end (insertion order is preserved). -/
def alistSet {α : Type} : List (List Nat × α) → List Nat → α → List (List Nat × α)
  | [], k, v => [(k, v)]
  | (k₁, v₁) :: rest, k, v => if k₁ = k then (k, v) :: rest else (k₁, v₁) :: alistSet rest k v

/-- Helper for `splitDollar`: current component accumulated in reverse. -/
def splitDollarAux : List Nat → List Nat → List (List Nat)
  | [], cur => [cur.reverse]
  | c :: rest, cur =>
    if c = 36 then cur.reverse :: splitDollarAux rest []
    else splitDollarAux rest (c :: cur)

/-- JS `String.split` on the dollar sign (byte 36): the list of components
of a composite `arena$entity` key. -/
def splitDollar (s : List Nat) : List (List Nat) := splitDollarAux s []

namespace Cmi

/-- One element of an opcode schema entry, as in `cmi.ts`: a fixed byte skip
or one of the typed operand tags `p`, `b`, `c`, `v`. -/
inductive OpPart where
  | num (n : Nat)
  | p
  | b
  | c
  | v
  deriving DecidableEq

/-- An entry of the 256-entry opcode schema table of `cmi.ts`: a single
part, a list of parts, `null` (invalid opcode), or a `Todo` marker
(recognized but not yet modeled). -/
inductive Op where
  | base (x : OpPart)
  | list (l : List OpPart)
  | null
  | todo (n : Nat)

/-- The `pb` shorthand of the source table. -/
def pb : Op := .list [.p, .b]

/-- The `cb` shorthand of the source table. -/
def cb : Op := .list [.c, .b]

/-- Row 0x00 of the opcode table. -/
def opcRow0 : List Op := [
  .null,
  .base (.num 0),
  .todo 0x02,
  .todo 0x03,
  .todo 0x04,
  .base (.num 4),
  .base (.num 0),
  .null,
  .base (.num 2),
  .base (.num 0),
  .list [.p, .num 1, .b],
  .base (.num 1),
  .todo 0x0C,
  .base .b,
  .list [.num 3, .b],
  .base (.num 0)]

/-- Row 0x10 of the opcode table. -/
def opcRow1 : List Op := [
  .base (.num 2),
  .base .b,
  .list [.num 4, .b],
  .base (.num 0),
  .base (.num 0),
  .base (.num 4),
  .base .b,
  .base (.num 1),
  .list [.num 1, .p],
  .base .p,
  .base .p,
  .base .b,
  .base (.num 4),
  .list [.num 1, .p, .num 4],
  .null,
  .todo 0x1F]

/-- Row 0x20 of the opcode table. -/
def opcRow2 : List Op := [
  .todo 0x20,
  .list [.num 4, .b],
  .base .b,
  .base (.num 1),
  .base (.num 1),
  .base .b,
  cb,
  .base .v,
  .base .v,
  .base (.num 1),
  .todo 0x2A,
  .base (.num 8),
  .base .b,
  cb,
  .base .b,
  .list [.num 4, .b]]

/-- Row 0x30 of the opcode table. -/
def opcRow3 : List Op := [
  .list [.num 4, .b],
  .list [.num 1, .b],
  .base .v,
  .base .v,
  .base .v,
  .base .v,
  cb,
  .base .v,
  .base (.num 2),
  .list [.num 3, .b],
  .base .v,
  .todo 0x3B,
  .base (.num 0),
  .todo 0x3D,
  cb,
  .base (.num 1)]

/-- Row 0x40 of the opcode table. -/
def opcRow4 : List Op := [
  .base .v,
  .base (.num 6),
  .base (.num 6),
  .list [.num 2, .c, .b],
  .base (.num 2),
  .base (.num 2),
  .base (.num 2),
  .list [.num 2, .b],
  .list [.num 2, .b],
  .base (.num 1),
  .list [.num 2, .p],
  .base (.num 0),
  .base (.num 4),
  .list [.num 1, .p],
  .base (.num 12),
  .base (.num 12)]

/-- Row 0x50 of the opcode table. -/
def opcRow5 : List Op := [
  .base (.num 12),
  .list [.num 1, .v],
  .base .v,
  .todo 0x53,
  .base .v,
  .base (.num 1),
  .list [.num 12, .p, .b],
  .list [.num 5, .b],
  .base (.num 1),
  .todo 0x59,
  .list [.p, .num 4],
  .base .v,
  .base (.num 2),
  .base (.num 16),
  .todo 0x5E,
  .todo 0x5F]

/-- Row 0x60 of the opcode table. -/
def opcRow6 : List Op := [
  .list [.num 16, .b],
  .base (.num 1),
  .base (.num 2),
  .base (.num 6),
  .base .p,
  .base (.num 0),
  .base .b,
  .list [.num 24, .b],
  .base (.num 4),
  .base (.num 20),
  .base (.num 4),
  .base .p,
  .base .b,
  .base (.num 1),
  .base (.num 0),
  .base (.num 4)]

/-- Row 0x70 of the opcode table. -/
def opcRow7 : List Op := [
  .list [.p, .num 16],
  .list [.num 12, .p, .num 4],
  .base .b,
  .list [.num 8, .b],
  .base (.num 4),
  .base (.num 4),
  .base (.num 4),
  .list [.p, .c, .b],
  .base (.num 4),
  .list [.num 4, .b],
  .base (.num 8),
  .base .b,
  .base (.num 4),
  .base (.num 0),
  .base (.num 0),
  cb]

/-- Row 0x80 of the opcode table. -/
def opcRow8 : List Op := [
  .list [.p, .num 2],
  .todo 0x81,
  .base (.num 0),
  .base (.num 1),
  .todo 0x84,
  .list [.p, .num 5],
  .base .v,
  .base (.num 4),
  .base (.num 34),
  .base (.num 13),
  .base (.num 37),
  .base (.num 25),
  .base (.num 3),
  .base (.num 9),
  .list [.num 1, .p, .num 6],
  .base .p]

/-- Row 0x90 of the opcode table. -/
def opcRow9 : List Op := [
  .list [.p, .num 30],
  .list [.p, .num 8],
  .list [.num 1, .p, .num 24],
  .base .p,
  .list [.p, .num 2],
  .list [.num 20, .p, .p, .num 4],
  .todo 0x96,
  .list [.p, .p, .p, .p],
  .base (.num 4),
  .base (.num 4),
  .base (.num 2),
  .list [.v, .b],
  .list [.num 1, .p, .num 4],
  .list [.p, .num 8],
  .todo 0x9E,
  .todo 0x9F]

/-- Row 0xA0 of the opcode table. -/
def opcRowA : List Op := [
  cb,
  .list [.num 12, .p, .num 4],
  .base (.num 3),
  .list [.num 1, .c, .b],
  .todo 0xA4,
  .base .b,
  .base .b,
  .base (.num 4),
  .base (.num 2),
  .base .v,
  .base (.num 4),
  .base .b,
  .todo 0xAC,
  .todo 0xAD,
  .list [.num 1, .c, .b],
  .list [.num 1, .c, .b]]

/-- Row 0xB0 of the opcode table. -/
def opcRowB : List Op := [
  .base .b,
  .base .v,
  .todo 0xB2,
  .list [.p, .num 4],
  .todo 0xB4,
  .todo 0xB5,
  .null,
  .todo 0xB7,
  .base (.num 12),
  cb,
  .base (.num 5),
  .base (.num 8),
  cb,
  .todo 0xBD,
  .list [.num 1, .p],
  .list [.num 1, .c, .b]]

/-- Row 0xC0 of the opcode table. -/
def opcRowC : List Op := [
  .list [.num 16, .b],
  .todo 0xC1,
  .base (.num 5),
  .list [.num 1, .b],
  .null,
  .base .b,
  .list [.p, .num 9],
  .base .v,
  .list [.num 16, .b],
  .base (.num 8),
  .base (.num 1),
  .todo 0xCB,
  .base (.num 0),
  .base (.num 1),
  .list [.num 8, .p, .num 4],
  .list [.num 8, .b]]

/-- Row 0xD0 of the opcode table. -/
def opcRowD : List Op := [
  pb,
  .base .b,
  .base .v,
  .base (.num 0),
  .base .b,
  cb,
  cb,
  .base .v,
  .base (.num 6),
  .base (.num 5),
  .base (.num 4),
  .list [.num 8, .b],
  .base (.num 12),
  .list [.num 1, .b],
  cb,
  .base .p]

/-- Row 0xE0 of the opcode table. -/
def opcRowE : List Op := [
  .todo 0xE0,
  .base .b,
  .base (.num 20),
  .null,
  .base .p,
  .list [.num 4, .b],
  .list [.num 20, .p, .b],
  .base .b,
  .list [.num 1, .b],
  pb,
  cb,
  .base (.num 16),
  .list [.num 12, .b],
  .list [.num 24, .b],
  .list [.num 1, .c, .b],
  .base (.num 24)]

/-- Row 0xF0 of the opcode table. -/
def opcRowF : List Op := [
  .base (.num 1),
  cb,
  .todo 0xF2,
  .list [.num 3, .b],
  .base (.num 5),
  .todo 0xF5,
  .base (.num 5),
  .list [.num 1, .p, .num 4],
  .todo 0xF8,
  .todo 0xF9,
  .todo 0xFA,
  .base (.num 1),
  .todo 0xFC,
  .base (.num 0),
  .null,
  .null]

/-- The static 256-entry opcode table of `cmi.ts`, transcribed entry for
entry (index = opcode byte), split into its sixteen rows (row r holds
opcodes 0xr0 through 0xrF). -/
def opcodesTable : List Op :=
  opcRow0 ++ opcRow1 ++ opcRow2 ++ opcRow3 ++ opcRow4 ++ opcRow5 ++ opcRow6 ++ opcRow7 ++
  opcRow8 ++ opcRow9 ++ opcRowA ++ opcRowB ++ opcRowC ++ opcRowD ++ opcRowE ++ opcRowF


/-- The schema table as a lookup function (the opcode byte is always < 256,
so the default is never reached for real reads). -/
def opcodesFn : Nat → Op := fun n => opcodesTable.getD n .null

/-- Consume the operand bytes of one schema part, as the inner `for` loop of
`run_bytecode` does: a fixed skip, a length-prefixed string, or one of the
tag-dependent conditional skips. -/
def consumeOne (buf : Buf) (part : OpPart) (o : Nat) : Except RErr Nat :=
  match part with
  | .num n => .ok (o + n)
  | .p => (rpstr buf o).map (·.2)
  | .b => (ru8 buf o).map (fun p =>
      if p.1 = 0xFE then p.2 + 8
      else if p.1 = 0xFC ∨ p.1 = 0x0C then p.2 + 4
      else p.2)
  | .c => (ru8 buf o).map (fun p => if p.1 = 7 ∨ p.1 = 8 then p.2 + 8 else p.2 + 4)
  | .v => (ru8 buf o).map (fun p => if p.1 = 3 then p.2 + 4 else p.2 + 1)

/-- Consume the operand bytes of a whole schema entry (a list of parts). -/
def consumeList (buf : Buf) : List OpPart → Nat → Except RErr Nat
  | [], o => .ok o
  | part :: rest, o => do
    let o₁ ← consumeOne buf part o
    consumeList buf rest o₁

/-- The inner decode loop of `run_bytecode`, structurally recursive on the
remaining loop counter (the source decrements `loopcount` and asserts it at
the top of every iteration, so the loop counter bounds the recursion).
Returns `()` when the script finished (opcode 0xFF, a table entry equal to
0xFF, or a Todo entry). The 0xFF opcode check happens before the table is
consulted. -/
def innerLoop (schema : Nat → Op) (buf : Buf) : Nat → Nat → Except RErr Unit
  | _, 0 => .error (.assertFail "infinite loop")
  | o, lc + 1 => do
    let (opcode, o₁) ← ru8 buf o
    if opcode = 0xFF then .ok ()
    else
      match schema opcode with
      | .null => .error (.assertFail ("invalid opcode " ++ toString opcode))
      | .base (.num 255) => .ok ()
      | .todo _ => .ok ()
      | .base x => do
        let o₂ ← consumeList buf [x] o₁
        innerLoop schema buf o₂ lc
      | .list l => do
        let o₂ ← consumeList buf l o₁
        innerLoop schema buf o₂ lc

/-- An entity of `cmi.ts`: a name plus a callstack of reader offsets into
the shared buffer (top of stack = last element, as in a JS array). -/
structure CEnt where
  name : List Nat
  callstack : List Nat
  deriving DecidableEq

/-- An arena of `cmi.ts`: its own entity record (an arena is an entity),
its live entities, and its setup-template entities. -/
structure CArena where
  ent : CEnt
  entities : List CEnt
  setups : List CEnt
  deriving DecidableEq

/-- A level of `cmi.ts`: a name and an insertion-ordered name-to-arena map. -/
structure CLevel where
  name : List Nat
  arenas : List (List Nat × CArena)
  deriving DecidableEq

/-- `run_bytecode` of `cmi.ts`: nothing to do on an empty callstack;
otherwise check the stack-depth guard, run the inner decode loop from the
top-of-stack offset with a loop budget of 10000, and clear the callstack.
(The callstack never grows in this iteration, so the outer `while` of the
source runs at most once.) -/
def run_bytecode (schema : Nat → Op) (buf : Buf) (e : CEnt) : Except RErr CEnt :=
  match e.callstack with
  | [] => .ok e
  | top :: rest =>
    if (top :: rest).length < 1000 then do
      let _ ← innerLoop schema buf ((top :: rest).getLastD 0) 10000
      .ok { e with callstack := [] }
    else .error (.assertFail "stack overflow")

/-- A script-run event recorded by the instrumented load driver: which
collection the executed entity came from, and its name. -/
inductive Ev where
  | pass1 (name : List Nat)
  | setupRun (name : List Nat)
  | arenaRun (name : List Nat)
  | pass2 (name : List Nat)
  deriving DecidableEq

/-- One pass of the load driver over a list of entities: run each script in
list order, recording one event per invocation. -/
def runPass (schema : Nat → Op) (buf : Buf) (tag : List Nat → Ev) :
    List CEnt → Except RErr (List CEnt × List Ev)
  | [] => .ok ([], [])
  | e :: rest => do
    let e₁ ← run_bytecode schema buf e
    let (rest₁, evs) ← runPass schema buf tag rest
    .ok (e₁ :: rest₁, tag e.name :: evs)

/-- The per-arena body of the load driver of `cmi.ts` (`go`, the
`level.arenas.forEach` body): every live entity once, every setup template
once, the arena itself, then every live entity again. -/
def runArenaPasses (schema : Nat → Op) (buf : Buf) (ar : CArena) :
    Except RErr (CArena × List Ev) := do
  let (ents₁, t₁) ← runPass schema buf .pass1 ar.entities
  let (setups₁, t₂) ← runPass schema buf .setupRun ar.setups
  let arEnt ← run_bytecode schema buf ar.ent
  let (ents₂, t₄) ← runPass schema buf .pass2 ents₁
  .ok ({ ar with ent := arEnt, entities := ents₂, setups := setups₁ },
    t₁ ++ t₂ ++ (.arenaRun ar.ent.name :: t₄))

/-- The load driver over every arena of the level, in map insertion order. -/
def runArenasList (schema : Nat → Op) (buf : Buf) :
    List (List Nat × CArena) → Except RErr (List (List Nat × CArena) × List Ev)
  | [] => .ok ([], [])
  | (nm, ar) :: rest => do
    let (ar₁, evs₁) ← runArenaPasses schema buf ar
    let (rest₁, evs₂) ← runArenasList schema buf rest
    .ok ((nm, ar₁) :: rest₁, evs₁ ++ evs₂)

/-- The execution phase of `go` in `cmi.ts`: run the per-arena four-pass
driver over every arena of the level. -/
def runExecPhase (schema : Nat → Op) (buf : Buf) (lvl : CLevel) :
    Except RErr (CLevel × List Ev) := do
  let (as₁, evs) ← runArenasList schema buf lvl.arenas
  .ok ({ lvl with arenas := as₁ }, evs)

/-- The four-pass order of script-run events the specification claims for
one arena. -/
def fourPassTrace (ar : CArena) : List Ev :=
  ar.entities.map (fun e => .pass1 e.name) ++ ar.setups.map (fun e => .setupRun e.name)
    ++ (.arenaRun ar.ent.name :: ar.entities.map (fun e => .pass2 e.name))

/-- `read_offsets` of `cmi.ts`: the entry-reading loop (length-prefixed
name, 4-byte offset), preserving file order and duplicates. -/
def readOffsetsLoop (buf : Buf) : Nat → Nat → Except RErr (List (List Nat × Nat) × Nat)
  | 0, o => .ok ([], o)
  | n + 1, o => do
    let (nm, o₁) ← rpstr buf o
    let (v, o₂) ← ru32 buf o₁
    let (rest, o₃) ← readOffsetsLoop buf n o₂
    .ok ((nm, v) :: rest, o₃)

/-- `read_offsets` of `cmi.ts`: a 4-byte count followed by that many
(length-prefixed name, 4-byte offset) pairs. -/
def readOffsetsC (buf : Buf) (o : Nat) : Except RErr (List (List Nat × Nat) × Nat) := do
  let (n, o₁) ← ru32 buf o
  readOffsetsLoop buf n o₁

/-- The arena-building loop of `go` in `cmi.ts`: for each arena-table entry,
jump to its record, skip two length-prefixed strings, read the 4-byte script
entry offset, and create an arena whose callstack holds that offset when it
is nonzero (JS truthiness of `reader.offset`). -/
def buildArenas (buf : Buf) :
    List (List Nat × Nat) → List (List Nat × CArena) → Except RErr (List (List Nat × CArena))
  | [], acc => .ok acc
  | (nm, off) :: rest, acc => do
    let (_, oA) ← rpstr buf off
    let (_, oB) ← rpstr buf oA
    let (v, _) ← ru32 buf oB
    buildArenas buf rest
      (alistSet acc nm
        { ent := { name := nm, callstack := if v ≠ 0 then [v] else [] },
          entities := [], setups := [] })

/-- The init-table distribution loop of `go` in `cmi.ts`: split the
composite key on the dollar sign and push an entity onto the named arena.
A missing arena is a JS `TypeError` (the source indexes with `!`). -/
def distributeInits :
    List (List Nat × Nat) → List (List Nat × CArena) → Except RErr (List (List Nat × CArena))
  | [], acc => .ok acc
  | (key, off) :: rest, acc =>
    let parts := splitDollar key
    let an := parts.getD 0 []
    let en := parts.getD 1 []
    match alistGet acc an with
    | none => .error .typeError
    | some ar =>
      distributeInits rest
        (alistSet acc an
          { ar with entities :=
              ar.entities ++ [{ name := en, callstack := if off ≠ 0 then [off] else [] }] })

/-- The setup-table distribution loop of `go` in `cmi.ts`, identical to the
init loop but filling the setup-template list. -/
def distributeSetups :
    List (List Nat × Nat) → List (List Nat × CArena) → Except RErr (List (List Nat × CArena))
  | [], acc => .ok acc
  | (key, off) :: rest, acc =>
    let parts := splitDollar key
    let an := parts.getD 0 []
    let en := parts.getD 1 []
    match alistGet acc an with
    | none => .error .typeError
    | some ar =>
      distributeSetups rest
        (alistSet acc an
          { ar with setups :=
              ar.setups ++ [{ name := en, callstack := if off ≠ 0 then [off] else [] }] })

/-- `go` of `cmi.ts`: parse the 12-byte level name, skip the 4-byte file
size, read the four offset tables (init, mesh, setup, arena) in order, build
the arena map, distribute init and setup entries, and run the execution
phase; returns the level and the instrumented trace of script-run events. -/
def goC (buf : Buf) : Except RErr (CLevel × List Ev) := do
  let (nm, o₁) ← rstr buf 0 12
  let (initOffs, o₂) ← readOffsetsC buf (o₁ + 4)
  let (_, o₃) ← readOffsetsC buf o₂
  let (setupOffs, o₄) ← readOffsetsC buf o₃
  let (arenaOffs, _) ← readOffsetsC buf o₄
  let as₁ ← buildArenas buf arenaOffs []
  let as₂ ← distributeInits initOffs as₁
  let as₃ ← distributeSetups setupOffs as₂
  let (as₄, evs) ← runArenasList opcodesFn buf as₃
  .ok ({ name := nm, arenas := as₄ }, evs)

end Cmi

namespace P0

/-- Structured payload of one bracketed trace line of `part_000` (the
rendered string is a function of the payload, so log equality at this level
determines byte equality of the rendered logs). -/
inductive LogMsg where
  | setResumePoint
  | setMinOrderRange (n : Nat)
  | endScript
  | destroyed
  | setHealth (n : Nat)
  | setAnimName (s : List Nat)
  | setAnimOffset (n : Nat)
  | delay (q : ℚ)
  | setMaxOrderRange (n : Nat)
  | setFlags (n : Nat)
  | spawnDoor (pos : ℚ × ℚ × ℚ) (angle : ℚ) (id : Int) (name target : List Nat) (scrOff : Nat)
  | setDoorAnims
  | setDoorSounds (s1 s2 s3 s4 : List Nat)
  | setDoorFlags (n : Nat)
  | setDoorOpenDistance (q : ℚ)
  | spawnPickup (name : List Nat) (pos : ℚ × ℚ × ℚ)
  | spawnEnt (name : List Nat)
  | finishedScript
  | unknownOpcode
  deriving DecidableEq

/-- One entry of an entity execution log of `part_000`: the constructor
line (with the door target-arena suffix when the entity is a door), the two
setup markers pushed by `spawnEntity`, or a bracketed line recording the
instruction offset, the opcode byte and the message payload. -/
inductive LogEntry where
  | init (name : List Nat) (id : Int) (pos : ℚ × ℚ × ℚ) (angle : ℚ)
      (doorTarget : Option (List Nat))
  | runningSetup
  | setupComplete
  | line (offset opcode : Nat) (msg : LogMsg)
  deriving DecidableEq

/-- The entity variant of `part_000`: plain `Entity`, `PickupEntity`, or
`DoorEntity` with its extra fields. The target arena is kept as the index
of the arena object inside the owning level (arenas are created once and
never copied, so index equality is object identity). -/
inductive EKind where
  | plain
  | pickup
  | door (targetArena : Nat) (doorFlags : Nat) (openDistance : ℚ)
  deriving DecidableEq

/-- The entity record of `part_000` (the `Entity` class fields). -/
structure Ent where
  name : List Nat
  id : Int
  position : ℚ × ℚ × ℚ
  yawAngle : ℚ
  health : Nat
  flags : Nat
  minOrderRange : Nat
  maxOrderRange : Nat
  vars : List ℚ
  scriptOffset : Nat
  scriptDelay : ℚ
  scriptOffsetAfterDelay : Nat
  log : List LogEntry
  kind : EKind
  deriving DecidableEq

/-- The arena record of `part_000`: the arena is itself an entity (`ent`),
plus the arena-only fields. -/
structure Arena where
  ent : Ent
  dataOffset : Nat
  setupOffsets : List (List Nat × Nat)
  entities : List Ent
  arenaVariables : List ℚ
  deriving DecidableEq

/-- The level record of `part_000`: name, arena array (lookup by linear
scan), and the 4-slot level variable array. -/
structure Level where
  name : List Nat
  arenas : List Arena
  vars : List ℚ
  deriving DecidableEq

/-- The `Entity` constructor of `part_000`: defaults plus the constructor
log line. -/
def mkEnt (name : List Nat) (id : Int) (pos : ℚ × ℚ × ℚ) (angle : ℚ) : Ent :=
  { name := name, id := id, position := pos, yawAngle := angle, health := 10, flags := 0,
    minOrderRange := 0, maxOrderRange := 0, vars := [0, 0, 0, 0], scriptOffset := 0,
    scriptDelay := 0, scriptOffsetAfterDelay := 0,
    log := [.init name id pos angle none], kind := .plain }

/-- The `DoorEntity` constructor of `part_000`: door flags default to
CLOSED (8), open distance to 20, and the constructor log line carries the
target arena name. -/
def mkDoor (name : List Nat) (id : Int) (pos : ℚ × ℚ × ℚ) (angle : ℚ)
    (targetIdx : Nat) (targetName : List Nat) : Ent :=
  { mkEnt name id pos angle with
    kind := .door targetIdx 8 20,
    log := [.init name id pos angle (some targetName)] }

/-- The `PickupEntity` constructor of `part_000`: id 0, default angle. -/
def mkPickup (name : List Nat) (pos : ℚ × ℚ × ℚ) : Ent :=
  { mkEnt name 0 pos 0 with kind := .pickup }

/-- Placeholder entity used only as the default of out-of-range list
lookups (never reached through a valid reference). -/
def dummyEnt : Ent :=
  { name := [], id := 0, position := (0, 0, 0), yawAngle := 0, health := 0, flags := 0,
    minOrderRange := 0, maxOrderRange := 0, vars := [], scriptOffset := 0,
    scriptDelay := 0, scriptOffsetAfterDelay := 0, log := [], kind := .plain }

/-- Placeholder arena used only as the default of out-of-range lookups. -/
def dummyArena : Arena :=
  { ent := dummyEnt, dataOffset := 0, setupOffsets := [], entities := [], arenaVariables := [] }

/-- A reference into the mutable object graph: either the arena itself (an
arena is an entity) or entity number `i` of arena `a`. Mutation of a JS
object is modeled as updating the referenced slot; entities are only ever
appended or updated in place, so slots are stable. -/
inductive ERef where
  | arenaSelf (a : Nat)
  | ent (a : Nat) (i : Nat)
  deriving DecidableEq

/-- The owning arena of a reference (the `entity.arena` back-reference). -/
def ERef.arenaIdx : ERef → Nat
  | .arenaSelf a => a
  | .ent a _ => a

/-- Arena number `a` of the level. -/
def getArena (w : Level) (a : Nat) : Arena := w.arenas.getD a dummyArena

/-- The entity a reference points at. -/
def getEnt (w : Level) : ERef → Ent
  | .arenaSelf a => (getArena w a).ent
  | .ent a i => (getArena w a).entities.getD i dummyEnt

/-- Update arena number `a` in place. -/
def setArena (w : Level) (a : Nat) (f : Arena → Arena) : Level :=
  { w with arenas := w.arenas.set a (f (getArena w a)) }

/-- Update the referenced entity in place. -/
def setEnt (w : Level) : ERef → (Ent → Ent) → Level
  | .arenaSelf a, f => setArena w a (fun ar => { ar with ent := f ar.ent })
  | .ent a i, f =>
    setArena w a (fun ar =>
      { ar with entities := ar.entities.set i (f (ar.entities.getD i dummyEnt)) })

/-- Append an entity to the live list of arena `a` (the `entities.push` of
`spawnEntity`). -/
def pushEnt (w : Level) (a : Nat) (e : Ent) : Level :=
  setArena w a (fun ar => { ar with entities := ar.entities ++ [e] })

/-- Append one bracketed log line to an entity. -/
def logE (off op : Nat) (m : LogMsg) (e : Ent) : Ent :=
  { e with log := e.log ++ [.line off op m] }

/-- Scan helper of `Level.findArena`. -/
def findArenaAux : List Arena → Nat → List Nat → Except RErr Nat
  | [], _, _ => .error (.assertFail "arena not found")
  | ar :: rest, i, nm => if ar.ent.name = nm then .ok i else findArenaAux rest (i + 1) nm

/-- `Level.findArena` of `part_000`: index of the first arena with the
given name; a missing arena is a failed assert. The returned index is the
identity of the arena object. -/
def findArena (w : Level) (nm : List Nat) : Except RErr Nat := findArenaAux w.arenas 0 nm

/-- Attach the current (unchanged) level to the error of a pure reader, as
the world state at the moment a JS exception propagates. -/
def liftR {α : Type} (w : Level) : Except RErr α → Except (RErr × Level) α
  | .error e => .error (e, w)
  | .ok x => .ok x

/-- `getVar` of `part_000` (the Variable Resolver): read one tag byte; tag
3 returns an immediate float from the next 4 bytes; otherwise read one
index byte, assert it is at most 3, and return the indexed slot of the
level / arena / entity variable array for tags 0 / 1 / 2; any other tag
(dynamic 4, door 5, or out of range) fails the final assert. -/
def getVar (buf : Buf) (w : Level) (ref : ERef) (o : Nat) : Except RErr (ℚ × Nat) := do
  let (t, o₁) ← ru8 buf o
  if t = 3 then rf32 buf o₁
  else do
    let (idx, o₂) ← ru8 buf o₁
    if idx ≤ 3 then
      if t = 0 then .ok (w.vars.getD idx 0, o₂)
      else if t = 1 then .ok ((getArena w ref.arenaIdx).arenaVariables.getD idx 0, o₂)
      else if t = 2 then .ok ((getEnt w ref).vars.getD idx 0, o₂)
      else .error (.assertFail ("todo var type " ++ toString t))
    else .error (.assertFail "assert failed")

/-- The `assert(entity instanceof DoorEntity)` of the door opcodes: yields
the door fields or fails. -/
def requireDoor (w : Level) (ref : ERef) : Except (RErr × Level) (Nat × Nat × ℚ) :=
  match (getEnt w ref).kind with
  | .door t f d => .ok (t, f, d)
  | _ => .error (.assertFail "assert failed", w)

mutual

/-- `executeOpcode` of `part_000`: decode one instruction at `off` for the
referenced entity, apply its semantics, and return the updated level, the
new cursor offset, and whether execution continues. The branches are in
source order; the final branch is the unknown-opcode default. The fuel
argument only bounds the spawn recursion, which the source leaves
unbounded. -/
def executeOpcode (buf : Buf) (fuel : Nat) (w : Level) (ref : ERef) (off : Nat) :
    Except (RErr × Level) (Level × Nat × Bool) :=
  match fuel with
  | 0 => .error (.fuel, w)
  | fuel + 1 => do
    let (b, o₁) ← liftR w (ru8 buf off)
    if b = 0x01 then
      .ok (setEnt w ref (fun e => logE off b .setResumePoint { e with scriptOffset := off + 1 }),
        o₁, true)
    else if b = 0x0B then do
      let (v, o₂) ← liftR w (ru8 buf o₁)
      .ok (setEnt w ref (fun e => logE off b (.setMinOrderRange v) { e with minOrderRange := v }),
        o₂, true)
    else if b = 0x09 then
      .ok (setEnt w ref (fun e => logE off b .endScript { e with scriptOffset := 0 }), o₁, false)
    else if b = 0x10 then do
      let (h, o₂) ← liftR w (ru16 buf o₁)
      if h = 0 then
        .ok (setEnt w ref (fun e => logE off b .destroyed { e with health := h }), o₂, false)
      else
        .ok (setEnt w ref (fun e => logE off b (.setHealth h) { e with health := h }), o₂, true)
    else if b = 0x3B then do
      let (animOff, o₂) ← liftR w (ru32 buf o₁)
      let (num, _) ← liftR w (ru32 buf animOff)
      if num = 0 then do
        let (nm, _) ← liftR w (rstr buf (animOff + 4) 8)
        .ok (setEnt w ref (logE off b (.setAnimName nm)), o₂, true)
      else
        .ok (setEnt w ref (logE off b (.setAnimOffset animOff)), o₂, true)
    else if b = 0x40 then do
      let (q, o₂) ← liftR w (getVar buf w ref o₁)
      .ok (setEnt w ref (fun e =>
        logE off b (.delay q) { e with scriptDelay := q, scriptOffsetAfterDelay := o₂ }),
        o₂, false)
    else if b = 0x49 then do
      let (v, o₂) ← liftR w (ru8 buf o₁)
      .ok (setEnt w ref (fun e => logE off b (.setMaxOrderRange v) { e with maxOrderRange := v }),
        o₂, true)
    else if b = 0x74 then do
      let (f, o₂) ← liftR w (ru32 buf o₁)
      .ok (setEnt w ref (fun e => logE off b (.setFlags f) { e with flags := e.flags ||| f }),
        o₂, true)
    else if b = 0x95 then do
      let (pos, o₂) ← liftR w (rvec3 buf o₁)
      let (ang, o₃) ← liftR w (rf32 buf o₂)
      let (idv, o₄) ← liftR w (ri32 buf o₃)
      let (nm, o₅) ← liftR w (rpstr buf o₄)
      let (tgt, o₆) ← liftR w (rpstr buf o₅)
      let (so, o₇) ← liftR w (ru32 buf o₆)
      let j ← liftR w (findArena w tgt)
      let w₁ := setEnt w ref (logE off b (.spawnDoor pos ang idv nm tgt so))
      let w₂ ← spawnEntity buf fuel w₁ ref.arenaIdx
        (mkDoor nm idv pos ang j (getArena w j).ent.name) so
      .ok (w₂, o₇, true)
    else if b = 0x96 then do
      let _ ← requireDoor w ref
      let (_, o₂) ← liftR w (ru32 buf o₁)
      let (_, o₃) ← liftR w (ru32 buf o₂)
      .ok (setEnt w ref (logE off b .setDoorAnims), o₃, true)
    else if b = 0x97 then do
      let _ ← requireDoor w ref
      let (s1, o₂) ← liftR w (rpstr buf o₁)
      let (s2, o₃) ← liftR w (rpstr buf o₂)
      let (s3, o₄) ← liftR w (rpstr buf o₃)
      let (s4, o₅) ← liftR w (rpstr buf o₄)
      .ok (setEnt w ref (logE off b (.setDoorSounds s1 s2 s3 s4)), o₅, true)
    else if b = 0x98 then do
      let d ← requireDoor w ref
      let (f, o₂) ← liftR w (ru32 buf o₁)
      .ok (setEnt w ref (fun e =>
        logE off b (.setDoorFlags f)
          { e with kind := .door d.1 ((d.2.1 &&& 0xF) ||| f) d.2.2 }), o₂, true)
    else if b = 0x99 then do
      let d ← requireDoor w ref
      let (q, o₂) ← liftR w (rf32 buf o₁)
      .ok (setEnt w ref (fun e =>
        logE off b (.setDoorOpenDistance q) { e with kind := .door d.1 d.2.1 q }), o₂, true)
    else if b = 0xA1 then do
      let (pos, o₂) ← liftR w (rvec3 buf o₁)
      let (nm, o₃) ← liftR w (rpstr buf o₂)
      let (so, o₄) ← liftR w (ru32 buf o₃)
      let w₁ := setEnt w ref (logE off b (.spawnPickup nm pos))
      let w₂ ← spawnEntity buf fuel w₁ ref.arenaIdx (mkPickup nm pos) so
      .ok (w₂, o₄, true)
    else if b = 0xE6 then do
      let (pos, o₂) ← liftR w (rvec3 buf o₁)
      let (ang, o₃) ← liftR w (rf32 buf o₂)
      let (idv, o₄) ← liftR w (ri32 buf o₃)
      let (nm, o₅) ← liftR w (rpstr buf o₄)
      let (so, o₆) ← liftR w (ru32 buf o₅)
      let w₁ := setEnt w ref (logE off b (.spawnEnt nm))
      let w₂ ← spawnEntity buf fuel w₁ ref.arenaIdx (mkEnt nm idv pos ang) so
      .ok (w₂, o₆, true)
    else if b = 0xFF then
      .ok (setEnt w ref (logE off b .finishedScript), o₁, false)
    else
      .ok (setEnt w ref (fun e => logE off b .unknownOpcode { e with scriptOffset := 0 }),
        o₁, false)
termination_by structural fuel

/-- The `while (true)` decode loop of `Entity.executeScript`, instrumented
with the list of instruction offsets decoded during this invocation. -/
def execLoop (buf : Buf) (fuel : Nat) (w : Level) (ref : ERef) (off : Nat) :
    Except (RErr × Level) (Level × List Nat) :=
  match fuel with
  | 0 => .error (.fuel, w)
  | fuel + 1 => do
    let (w₁, o₁, cont) ← executeOpcode buf fuel w ref off
    if cont then do
      let (w₂, tr) ← execLoop buf fuel w₁ ref o₁
      .ok (w₂, off :: tr)
    else .ok (w₁, [off])
termination_by structural fuel

/-- `Entity.executeScript` of `part_000`: a pending nonzero resume offset
takes precedence — with positive remaining delay the call yields at once,
otherwise the stored resume offset is cleared and becomes the cursor; a
zero cursor means no active script; otherwise decode from the cursor.
Returns the level and the offsets decoded during this invocation. -/
def executeScript (buf : Buf) (fuel : Nat) (w : Level) (ref : ERef) :
    Except (RErr × Level) (Level × List Nat) :=
  match fuel with
  | 0 => .error (.fuel, w)
  | fuel + 1 =>
    let e := getEnt w ref
    if e.scriptOffsetAfterDelay ≠ 0 then
      if e.scriptDelay > 0 then .ok (w, [])
      else
        let off := e.scriptOffsetAfterDelay
        let w₁ := setEnt w ref (fun x => { x with scriptOffsetAfterDelay := 0 })
        if off = 0 then .ok (w₁, []) else execLoop buf fuel w₁ ref off
    else if e.scriptOffset = 0 then .ok (w, [])
    else execLoop buf fuel w ref e.scriptOffset
termination_by structural fuel

/-- `Arena.spawnEntity` of `part_000`: push the new entity onto the live
list; when a nonzero setup-template offset exists for its name (JS
truthiness), set the script cursor to it, log the setup markers and run the
setup script; finally assign the given runtime script offset. -/
def spawnEntity (buf : Buf) (fuel : Nat) (w : Level) (a : Nat) (e : Ent) (so : Nat) :
    Except (RErr × Level) Level :=
  match fuel with
  | 0 => .error (.fuel, w)
  | fuel + 1 =>
    let idx := (getArena w a).entities.length
    let w₁ := pushEnt w a e
    let setupOff := (alistGet (getArena w a).setupOffsets e.name).getD 0
    if setupOff ≠ 0 then do
      let w₂ := setEnt w₁ (.ent a idx) (fun x => { x with scriptOffset := setupOff })
      let w₃ := setEnt w₂ (.ent a idx) (fun x => { x with log := x.log ++ [.runningSetup] })
      let (w₄, _) ← executeScript buf fuel w₃ (.ent a idx)
      let w₅ := setEnt w₄ (.ent a idx) (fun x => { x with log := x.log ++ [.setupComplete] })
      .ok (setEnt w₅ (.ent a idx) (fun x => { x with scriptOffset := so }))
    else
      .ok (setEnt w₁ (.ent a idx) (fun x => { x with scriptOffset := so }))
termination_by structural fuel

end

/-- The `for (const entity of this.entities)` loop of
`Arena.forAllEntities`: a JS array iterator checks the current index
against the current length at every step, so entities appended during the
pass are visited too. Instrumented with the list of visited references. -/
def arenaForAllLoop (func : Level → ERef → Except (RErr × Level) Level) :
    Nat → Level → Nat → Nat → Except (RErr × Level) (Level × List ERef)
  | 0, w, _, _ => .error (.fuel, w)
  | fuel + 1, w, a, i =>
    if i < (getArena w a).entities.length then do
      let w₁ ← func w (.ent a i)
      let (w₂, tr) ← arenaForAllLoop func fuel w₁ a (i + 1)
      .ok (w₂, .ent a i :: tr)
    else .ok (w, [])

/-- `Arena.forAllEntities` of `part_000`: every live entity in list order,
then (when `includeSelf`) the arena itself. -/
def arenaForAll (func : Level → ERef → Except (RErr × Level) Level)
    (fuel : Nat) (w : Level) (a : Nat) (includeSelf : Bool) :
    Except (RErr × Level) (Level × List ERef) := do
  let (w₁, tr) ← arenaForAllLoop func fuel w a 0
  if includeSelf then do
    let w₂ ← func w₁ (.arenaSelf a)
    .ok (w₂, tr ++ [.arenaSelf a])
  else .ok (w₁, tr)

/-- `Level.forAllEntities` of `part_000`: apply the per-arena pass to every
arena in order (the arena array is never modified after load, so iterating
over the index range is the array iteration of the source). -/
def levelForAll (func : Level → ERef → Except (RErr × Level) Level)
    (fuel : Nat) (w : Level) (includeArenas : Bool) : Except (RErr × Level) Level :=
  (List.range w.arenas.length).foldlM
    (fun wa a => (arenaForAll func fuel wa a includeArenas).map (·.1)) w

/-- The tick callback of `go` in `part_000`: decrement the delay counter by
0.5 (clamped at 0) and run the script of the visited entity. -/
def tickFun (buf : Buf) (fuel : Nat) : Level → ERef → Except (RErr × Level) Level :=
  fun w ref =>
    let w₁ := setEnt w ref (fun e => { e with scriptDelay := max 0 (e.scriptDelay - 1 / 2) })
    (executeScript buf fuel w₁ ref).map (·.1)

/-- An initial-placement record from the external spatial-index
collaborator (`BspEntity` of `part_000`). -/
structure BspEntity where
  arenaName : List Nat
  name : List Nat
  id : Int
  position : ℚ × ℚ × ℚ
  value : Int
  deriving DecidableEq

/-- The entry loop of `readOffsets` in `part_000` (the result is a JS
`Map`, so duplicate names overwrite in place). -/
def readOffsetsLoopP (buf : Buf) :
    Nat → Nat → List (List Nat × Nat) → Except RErr (List (List Nat × Nat) × Nat)
  | 0, o, acc => .ok (acc, o)
  | n + 1, o, acc => do
    let (nm, o₁) ← rpstr buf o
    let (v, o₂) ← ru32 buf o₁
    readOffsetsLoopP buf n o₂ (alistSet acc nm v)

/-- `readOffsets` of `part_000`: a 4-byte count then that many
(length-prefixed name, 4-byte offset) pairs into a map. -/
def readOffsetsP (buf : Buf) (o : Nat) : Except RErr (List (List Nat × Nat) × Nat) := do
  let (n, o₁) ← ru32 buf o
  readOffsetsLoopP buf n o₁ []

/-- The arena-building loop of `go` in `part_000`: jump to each arena
record, skip two length-prefixed strings, read the 4-byte script entry
offset, and append an `Arena` whose own entity has that script offset. -/
def buildArenasP (buf : Buf) : List (List Nat × Nat) → Nat → Level → Except RErr Level
  | [], _, w => .ok w
  | (nm, off) :: rest, idx, w => do
    let (_, oA) ← rpstr buf off
    let (_, oB) ← rpstr buf oA
    let (v, _) ← ru32 buf oB
    buildArenasP buf rest (idx + 1)
      { w with arenas := w.arenas ++
          [{ ent := { mkEnt nm (idx : Int) (0, 0, 0) 0 with scriptOffset := v },
             dataOffset := v, setupOffsets := [], entities := [],
             arenaVariables := [0, 0, 0, 0] }] }

/-- The setup-table distribution loop of `go` in `part_000`: split each
composite key on the dollar sign and record the setup offset under the
entity name in the owning arena. -/
def distributeSetupsP : List (List Nat × Nat) → Level → Except RErr Level
  | [], w => .ok w
  | (key, off) :: rest, w => do
    let parts := splitDollar key
    let an := parts.getD 0 []
    let en := parts.getD 1 []
    let j ← findArena w an
    distributeSetupsP rest
      (setArena w j (fun ar => { ar with setupOffsets := alistSet ar.setupOffsets en off }))

/-- The initial-entity seeding loop of `go` in `part_000`: for each record,
find its arena, look up the init offset under the
`arena$name_id` key (0 when absent), and spawn a plain entity with it. -/
def seedEntities (buf : Buf) (fuel : Nat) (initOffs : List (List Nat × Nat)) :
    List BspEntity → Level → Except (RErr × Level) Level
  | [], w => .ok w
  | d :: rest, w => do
    let j ← liftR w (findArena w d.arenaName)
    let key := d.arenaName ++ [36] ++ d.name ++ [95] ++ intDecBytes d.id
    let initOff := (alistGet initOffs key).getD 0
    let w₁ ← spawnEntity buf fuel w j (mkEnt d.name d.id d.position 0) initOff
    seedEntities buf fuel initOffs rest w₁

/-- The bounded tick loop of `go` in `part_000` (`for (let i = 0; i < 10; ...)`). -/
def tickLoop (buf : Buf) (fuel : Nat) : Nat → Level → Except (RErr × Level) Level
  | 0, w => .ok w
  | n + 1, w => do
    let w₁ ← levelForAll (tickFun buf fuel) fuel w true
    tickLoop buf fuel n w₁

/-- `go` of `part_000` (the load entry point): parse the 12-byte level name,
skip the file size, read the four offset tables, build the arenas,
distribute setup templates, seed the initial entities from the collaborator
records, and run ten tick passes over every entity including the arenas
themselves. The fuel bounds the spawn recursion and decode loops that the
source leaves unbounded. -/
def goP0 (fuel : Nat) (buf : Buf) (ents : List BspEntity) : Except RErr Level := do
  let (nm, o₁) ← rstr buf 0 12
  let (initOffs, o₂) ← readOffsetsP buf (o₁ + 4)
  let (_, o₃) ← readOffsetsP buf o₂
  let (setupOffs, o₄) ← readOffsetsP buf o₃
  let (arenaOffs, _) ← readOffsetsP buf o₄
  let w₁ ← buildArenasP buf arenaOffs 0
    { name := nm, arenas := [], vars := [0, 0, 0, 0] }
  let w₂ ← distributeSetupsP setupOffs w₁
  match seedEntities buf fuel initOffs ents w₂ with
  | .error (e, _) => .error e
  | .ok w₃ =>
    match tickLoop buf fuel 10 w₃ with
    | .error (e, _) => .error e
    | .ok w₄ => .ok w₄

/-- The observable product of a load: every entity trace log, per arena
(the arena log first, then the entity logs in list order). -/
def allLogs (w : Level) : List (List LogEntry × List (List LogEntry)) :=
  w.arenas.map (fun ar => (ar.ent.log, ar.entities.map (fun e => e.log)))

/-- The opcode bytes `executeOpcode` of `part_000` handles with a dedicated
case; every other byte hits the unknown-opcode default. -/
def handledOpcodes : List Nat :=
  [0x01, 0x0B, 0x09, 0x10, 0x3B, 0x40, 0x49, 0x74, 0x95, 0x96, 0x97, 0x98, 0x99, 0xA1, 0xE6, 0xFF]

/-- Growth preorder on levels: the arena count is unchanged, every entity
list only grows, and every existing log only gains entries at the end.
Every execution function preserves this relation. -/
def LevelLe (w w' : Level) : Prop :=
  w.arenas.length = w'.arenas.length ∧
  (∀ a, (getArena w a).entities.length ≤ (getArena w' a).entities.length) ∧
  (∀ a, (getArena w a).ent.log <+: (getArena w' a).ent.log) ∧
  (∀ a i, i < (getArena w a).entities.length →
    ((getArena w a).entities.getD i dummyEnt).log <+:
      ((getArena w' a).entities.getD i dummyEnt).log)

/-- A reference is valid when it points at an existing arena and, for an
entity reference, an existing slot of its live list. References produced by
the drivers are always valid; the lemmas about in-place updates assume it. -/
def ValidRef (w : Level) : ERef → Prop
  | .arenaSelf a => a < w.arenas.length
  | .ent a i => a < w.arenas.length ∧ i < (getArena w a).entities.length

end P0

namespace Cmi

lemma innerLoop_ff {schema : Nat → Op} {buf : Buf} {o lc : Nat} (hlc : lc ≠ 0)
    (hin : o + 1 ≤ buf.size) (hb : get8 buf o = 0xFF) :
    innerLoop schema buf o lc = .ok () := by
  match lc with
  | 0 => exact absurd rfl hlc
  | lc' + 1 =>
    rw [innerLoop]
    simp [ru8, hin, hb, Bind.bind, Except.bind]

lemma run_bytecode_name {schema : Nat → Op} {buf : Buf} {e e' : CEnt}
    (h : run_bytecode schema buf e = .ok e') : e'.name = e.name := by
  rw [run_bytecode] at h
  split at h
  · cases h; rfl
  · split at h
    · rcases hi : innerLoop schema buf _ 10000 with er | u <;> rw [hi] at h <;>
        simp only [Bind.bind, Except.bind] at h
      · cases h
      · cases h; rfl
    · cases h

lemma runPass_spec {schema : Nat → Op} {buf : Buf} {tag : List Nat → Ev} :
    ∀ {ents ents' : List CEnt} {evs : List Ev},
      runPass schema buf tag ents = .ok (ents', evs) →
      evs = ents.map (fun e => tag e.name) ∧
        ents'.map (fun e => e.name) = ents.map (fun e => e.name) := by
  intro ents
  induction ents with
  | nil =>
    intro ents' evs h
    rw [runPass] at h
    simp only [Except.ok.injEq, Prod.mk.injEq] at h
    simp [← h.1, ← h.2]
  | cons e rest ih =>
    intro ents' evs h
    rw [runPass] at h
    rcases hX : run_bytecode schema buf e with e₀ | e₁ <;> rw [hX] at h <;>
      simp only [Bind.bind, Except.bind] at h
    · cases h
    rcases hY : runPass schema buf tag rest with e₀ | p <;> rw [hY] at h
    · cases h
    simp only [Except.ok.injEq, Prod.mk.injEq] at h
    obtain ⟨hE, hV⟩ := h
    subst hE hV
    obtain ⟨ht, hn⟩ := @ih p.1 p.2 (by rw [hY])
    refine ⟨by rw [List.map_cons, ht], ?_⟩
    rw [List.map_cons, List.map_cons, hn, run_bytecode_name hX]

lemma runArenaPasses_trace {schema : Nat → Op} {buf : Buf} {ar ar' : CArena} {tr : List Ev}
    (h : runArenaPasses schema buf ar = .ok (ar', tr)) : tr = fourPassTrace ar := by
  rw [runArenaPasses] at h
  rcases h1 : runPass schema buf Ev.pass1 ar.entities with e₀ | p₁ <;> rw [h1] at h <;>
    simp only [Bind.bind, Except.bind] at h
  · cases h
  rcases h2 : runPass schema buf Ev.setupRun ar.setups with e₀ | p₂ <;> rw [h2] at h
  · cases h
  rcases h3 : run_bytecode schema buf ar.ent with e₀ | aE <;> rw [h3] at h <;>
    simp only [Bind.bind, Except.bind] at h
  · cases h
  rcases h4 : runPass schema buf Ev.pass2 p₁.1 with e₀ | p₄ <;> rw [h4] at h
  · cases h
  simp only [Except.ok.injEq, Prod.mk.injEq] at h
  obtain ⟨hA, hT⟩ := h
  subst hA hT
  obtain ⟨ht₁, hn₁⟩ := @runPass_spec schema buf Ev.pass1 ar.entities p₁.1 p₁.2 (by rw [h1])
  obtain ⟨ht₂, _⟩ := @runPass_spec schema buf Ev.setupRun ar.setups p₂.1 p₂.2 (by rw [h2])
  obtain ⟨ht₄, _⟩ := @runPass_spec schema buf Ev.pass2 p₁.1 p₄.1 p₄.2 (by rw [h4])
  have h₄' : p₄.2 = ar.entities.map (fun e => Ev.pass2 e.name) := by
    rw [ht₄]
    have h₅ : p₁.1.map (fun e => Ev.pass2 e.name) =
        (p₁.1.map (fun e => e.name)).map Ev.pass2 := by rw [List.map_map]; rfl
    rw [h₅, hn₁, List.map_map]; rfl
  rw [ht₁, ht₂, h₄', fourPassTrace]

lemma runArenasList_trace {schema : Nat → Op} {buf : Buf} :
    ∀ {as as' : List (List Nat × CArena)} {tr : List Ev},
      runArenasList schema buf as = .ok (as', tr) →
      tr = (as.map (fun p => fourPassTrace p.2)).flatten := by
  intro as
  induction as with
  | nil =>
    intro as' tr h
    rw [runArenasList] at h
    simp only [Except.ok.injEq, Prod.mk.injEq] at h
    simp [← h.2]
  | cons p rest ih =>
    intro as' tr h
    rw [runArenasList] at h
    rcases h1 : runArenaPasses schema buf p.2 with e₀ | q₁ <;> rw [h1] at h <;>
      simp only [Bind.bind, Except.bind] at h
    · cases h
    rcases h2 : runArenasList schema buf rest with e₀ | q₂ <;> rw [h2] at h
    · cases h
    simp only [Except.ok.injEq, Prod.mk.injEq] at h
    obtain ⟨hA, hT⟩ := h
    subst hA hT
    rw [List.map_cons, List.flatten_cons,
      @runArenaPasses_trace schema buf p.2 q₁.1 q₁.2 (by rw [h1]),
      @ih q₂.1 q₂.2 (by rw [h2])]

end Cmi

/-- C1: at load time, for every arena the engine executes scripts in the
fixed four-pass order: every live entity once, every setup-template once as
a dry pass, then the arena itself (the arena being itself an entity), then
every live entity again. The instrumented execution phase of `go` in
`cmi.ts` produces, for any schema table, exactly the concatenation of the
per-arena four-pass traces, arena by arena in map order. -/
theorem c1_four_pass_order (schema : Nat → Cmi.Op) (buf : Buf) (lvl lvl' : Cmi.CLevel)
    (tr : List Cmi.Ev) (h : Cmi.runExecPhase schema buf lvl = .ok (lvl', tr)) :
    tr = (lvl.arenas.map (fun p => Cmi.fourPassTrace p.2)).flatten := by
  rw [Cmi.runExecPhase] at h
  rcases h1 : Cmi.runArenasList schema buf lvl.arenas with e₀ | q <;> rw [h1] at h <;>
    simp only [Bind.bind, Except.bind] at h
  · cases h
  simp only [Except.ok.injEq, Prod.mk.injEq] at h
  rw [← h.2, @Cmi.runArenasList_trace schema buf lvl.arenas q.1 q.2 (by rw [h1])]

/-- C1 witness: a concrete one-arena level (one live entity, one setup
template, every script a single 0xFF byte) whose execution-phase trace is
exactly the four-pass order. -/
theorem c1_four_pass_order_witness :
    Cmi.runExecPhase Cmi.opcodesFn (bufOf [0xFF])
        { name := [76],
          arenas := [([65], { ent := { name := [65], callstack := [0] },
                              entities := [{ name := [69], callstack := [0] }],
                              setups := [{ name := [83], callstack := [0] }] })] } =
      .ok ({ name := [76],
             arenas := [([65], { ent := { name := [65], callstack := [] },
                                 entities := [{ name := [69], callstack := [] }],
                                 setups := [{ name := [83], callstack := [] }] })] },
        [.pass1 [69], .setupRun [83], .arenaRun [65], .pass2 [69]]) ∧
    ([.pass1 [69], .setupRun [83], .arenaRun [65], .pass2 [69]] : List Cmi.Ev) =
      (([([65], { ent := { name := [65], callstack := [0] },
                  entities := [{ name := [69], callstack := [0] }],
                  setups := [{ name := [83], callstack := [0] }] })] :
          List (List Nat × Cmi.CArena)).map (fun p => Cmi.fourPassTrace p.2)).flatten :=
  ⟨rfl, c1_four_pass_order Cmi.opcodesFn (bufOf [0xFF])
    { name := [76],
      arenas := [([65], { ent := { name := [65], callstack := [0] },
                          entities := [{ name := [69], callstack := [0] }],
                          setups := [{ name := [83], callstack := [0] }] })] }
    { name := [76],
      arenas := [([65], { ent := { name := [65], callstack := [] },
                          entities := [{ name := [69], callstack := [] }],
                          setups := [{ name := [83], callstack := [] }] })] }
    [.pass1 [69], .setupRun [83], .arenaRun [65], .pass2 [69]] rfl⟩

/-- C2: decoding the opcode byte 0xFF terminates the script of the entity,
for every schema table (in particular whatever the table holds at index
0xFF), at every script position including the very first byte: the inner
loop checks for 0xFF before consulting the table, and `run_bytecode`
returns normally with the callstack cleared. -/
theorem c2_ff_always_terminates (schema : Nat → Cmi.Op) (buf : Buf) (e : Cmi.CEnt) (off : Nat)
    (hne : e.callstack ≠ []) (hlen : e.callstack.length < 1000)
    (htop : e.callstack.getLastD 0 = off)
    (hin : off + 1 ≤ buf.size) (hb : get8 buf off = 0xFF) :
    Cmi.run_bytecode schema buf e = .ok { e with callstack := [] } := by
  rw [Cmi.run_bytecode]
  split
  · next heq => exact absurd heq hne
  · next top rest heq =>
    rw [heq] at hlen htop
    rw [if_pos hlen, htop, Cmi.innerLoop_ff (by decide) hin hb]
    rfl

/-- C2 witness: a schema table that is `null` everywhere, a buffer whose
single byte is 0xFF as the very first byte of the script, and an entity
whose callstack points at it: the run terminates normally. -/
theorem c2_ff_always_terminates_witness :
    Cmi.run_bytecode (fun _ => Cmi.Op.null) (bufOf [0xFF]) { name := [69], callstack := [0] } =
      .ok { name := [69], callstack := [] } :=
  c2_ff_always_terminates (fun _ => Cmi.Op.null) (bufOf [0xFF])
    { name := [69], callstack := [0] } 0 (by simp) (by simp) rfl (by decide) (by decide)

lemma guardBuf_innerLoop :
    ∀ lc o : Nat, o + lc ≤ 10001 →
      Cmi.innerLoop Cmi.opcodesFn ⟨10002, fun i => if i = 10001 then 255 else 1⟩ o lc =
        .error (.assertFail "infinite loop") := by
  intro lc
  induction lc with
  | zero => intro o h; rw [Cmi.innerLoop]
  | succ lc ih =>
    intro o h
    rw [Cmi.innerLoop]
    have ho : o ≠ 10001 := by omega
    have hb : get8 ⟨10002, fun i => if i = 10001 then 255 else 1⟩ o = 1 := by
      simp [get8, ho]
    have hin : o + 1 ≤ (⟨10002, fun i => if i = 10001 then 255 else 1⟩ : Buf).size := by
      show o + 1 ≤ 10002; omega
    have hop : Cmi.opcodesFn 1 = .base (.num 0) := rfl
    simp only [ru8, if_pos hin, hb, Bind.bind, Except.bind, hop]
    norm_num [Cmi.consumeList, Cmi.consumeOne]
    exact ih (o + 1) (by omega)

/-- C7 counterexample: the runaway-loop guard is fatal to the whole load,
not only to the tripping entity. A level with one arena holding first an
entity whose script is 10001 consecutive one-byte instructions (opcode
0x01, fixed skip 0) and then a sibling entity with a well-formed one-byte
script: the execution phase of the load returns the guard error, so the
sibling script is never run. -/
theorem c7_guard_counterexample :
    Cmi.runExecPhase Cmi.opcodesFn ⟨10002, fun i => if i = 10001 then 255 else 1⟩
      { name := [76],
        arenas := [([65], { ent := { name := [65], callstack := [] },
                            entities := [{ name := [66], callstack := [0] },
                                         { name := [71], callstack := [10001] }],
                            setups := [] })] } =
      .error (.assertFail "infinite loop") := by
  have hbad : Cmi.run_bytecode Cmi.opcodesFn ⟨10002, fun i => if i = 10001 then 255 else 1⟩
      { name := [66], callstack := [0] } = .error (.assertFail "infinite loop") := by
    rw [Cmi.run_bytecode]
    have hloop := guardBuf_innerLoop 10000 0 (by omega)
    simp [hloop, Bind.bind, Except.bind]
  simp [Cmi.runExecPhase, Cmi.runArenasList, Cmi.runArenaPasses, Cmi.runPass, hbad,
    Bind.bind, Except.bind]

/-- C7 amended: when the runaway-loop guard trips (the loop budget is
exhausted), an assertion error is raised, and any error raised while
running an entity aborts the whole load: it propagates through the pass
and the execution phase, so the remaining entities of the arena are never
run. (The claim as stated — fatal only to that entity, load continues —
does not hold of the code.) -/
theorem c7_guard_aborts_load :
    (∀ (schema : Nat → Cmi.Op) (buf : Buf) (o : Nat),
      Cmi.innerLoop schema buf o 0 = .error (.assertFail "infinite loop")) ∧
    (∀ (schema : Nat → Cmi.Op) (buf : Buf) (lvl : Cmi.CLevel) (nm : List Nat)
      (ar : Cmi.CArena) (restAs : List (List Nat × Cmi.CArena)) (e : Cmi.CEnt)
      (restEnts : List Cmi.CEnt) (err : RErr),
      lvl.arenas = (nm, ar) :: restAs → ar.entities = e :: restEnts →
      Cmi.run_bytecode schema buf e = .error err →
      Cmi.runExecPhase schema buf lvl = .error err) := by
  constructor
  · intro schema buf o; rw [Cmi.innerLoop]
  · intro schema buf lvl nm ar restAs e restEnts err hA hE hrun
    rw [Cmi.runExecPhase, hA, Cmi.runArenasList, Cmi.runArenaPasses, hE, Cmi.runPass, hrun]
    simp [Bind.bind, Except.bind]

/-- C7 amended witness: the counterexample input instantiates the amended
claim — the guard error of the first entity is the result of the whole
execution phase. -/
theorem c7_guard_aborts_load_witness :
    Cmi.runExecPhase Cmi.opcodesFn ⟨10002, fun i => if i = 10001 then 255 else 1⟩
      { name := [77],
        arenas := [([65], { ent := { name := [65], callstack := [] },
                            entities := [{ name := [66], callstack := [0] },
                                         { name := [71], callstack := [10001] }],
                            setups := [] })] } =
      .error (.assertFail "infinite loop") := by
  refine c7_guard_aborts_load.2 Cmi.opcodesFn ⟨10002, fun i => if i = 10001 then 255 else 1⟩
    _ [65] _ [] { name := [66], callstack := [0] } [{ name := [71], callstack := [10001] }]
    _ rfl rfl ?_
  rw [Cmi.run_bytecode]
  have hloop := guardBuf_innerLoop 10000 0 (by omega)
  simp [hloop, Bind.bind, Except.bind]

namespace P0

lemma getD_set_self {α : Type} : ∀ (l : List α) (i : Nat) (x d : α), i < l.length →
    (l.set i x).getD i d = x := by
  intro l
  induction l with
  | nil => intro i x d h; simp at h
  | cons a rest ih =>
    intro i x d h
    cases i with
    | zero => rfl
    | succ j => exact ih j x d (by simpa using h)

lemma getD_set_ne {α : Type} : ∀ (l : List α) (i j : Nat) (x d : α), i ≠ j →
    (l.set i x).getD j d = l.getD j d := by
  intro l
  induction l with
  | nil => intro i j x d _; simp [List.set]
  | cons a rest ih =>
    intro i j x d hne
    cases i with
    | zero => cases j with
      | zero => exact absurd rfl hne
      | succ k => rfl
    | succ i' => cases j with
      | zero => rfl
      | succ k => exact ih i' k x d (by omega)

lemma getArena_setArena_self {w : Level} {a : Nat} {f : Arena → Arena}
    (h : a < w.arenas.length) : getArena (setArena w a f) a = f (getArena w a) := by
  simp only [getArena, setArena]
  exact getD_set_self _ _ _ _ h

lemma getArena_setArena_ne {w : Level} {a a' : Nat} {f : Arena → Arena}
    (h : a ≠ a') : getArena (setArena w a f) a' = getArena w a' := by
  simp only [getArena, setArena]
  exact getD_set_ne _ _ _ _ _ h

lemma getEnt_setEnt_self {w : Level} {ref : ERef} {f : Ent → Ent}
    (h : ValidRef w ref) : getEnt (setEnt w ref f) ref = f (getEnt w ref) := by
  cases ref with
  | arenaSelf a =>
    simp only [getEnt, setEnt]
    rw [getArena_setArena_self h]
  | ent a i =>
    obtain ⟨ha, hi⟩ := h
    simp only [getEnt, setEnt]
    rw [getArena_setArena_self ha]
    exact getD_set_self _ _ _ _ hi

end P0

/-- C5: the variable resolver reads one tag byte. For a tag selecting
level (0), arena (1) or entity (2) scope it reads one further index byte,
fails unless that index is at most 3, and returns the corresponding slot
of the 4-slot variable array of the Level, the Arena, or the Entity; for
the immediate tag (3) it returns the float decoded from exactly the 4
bytes after the tag with no further byte consumed; for the dynamic (4) and
door (5) tags it fails loudly with the todo assert rather than returning a
default. -/
theorem c5_variable_resolver :
    (∀ (buf : Buf) (w : P0.Level) (ref : P0.ERef) (o t idx o₁ o₂ : Nat),
      ru8 buf o = .ok (t, o₁) → ru8 buf o₁ = .ok (idx, o₂) →
      (t = 0 ∨ t = 1 ∨ t = 2) → idx ≤ 3 →
      P0.getVar buf w ref o = .ok
        ((if t = 0 then w.vars.getD idx 0
          else if t = 1 then (P0.getArena w ref.arenaIdx).arenaVariables.getD idx 0
          else (P0.getEnt w ref).vars.getD idx 0), o₂)) ∧
    (∀ (buf : Buf) (w : P0.Level) (ref : P0.ERef) (o t idx o₁ o₂ : Nat),
      ru8 buf o = .ok (t, o₁) → ru8 buf o₁ = .ok (idx, o₂) → t ≠ 3 → ¬ idx ≤ 3 →
      P0.getVar buf w ref o = .error (.assertFail "assert failed")) ∧
    (∀ (buf : Buf) (w : P0.Level) (ref : P0.ERef) (o o₁ o₂ : Nat) (q : ℚ),
      ru8 buf o = .ok (3, o₁) → rf32 buf o₁ = .ok (q, o₂) →
      P0.getVar buf w ref o = .ok (q, o₂) ∧ o₂ = o₁ + 4) ∧
    (∀ (buf : Buf) (w : P0.Level) (ref : P0.ERef) (o t idx o₁ o₂ : Nat),
      ru8 buf o = .ok (t, o₁) → ru8 buf o₁ = .ok (idx, o₂) → (t = 4 ∨ t = 5) → idx ≤ 3 →
      P0.getVar buf w ref o = .error (.assertFail ("todo var type " ++ toString t))) := by
  refine ⟨?_, ?_, ?_, ?_⟩
  · intro buf w ref o t idx o₁ o₂ h1 h2 ht hidx
    rw [P0.getVar]
    simp only [h1, Bind.bind, Except.bind]
    rcases ht with h | h | h <;> subst h <;>
      simp [h2, Bind.bind, Except.bind, hidx]
  · intro buf w ref o t idx o₁ o₂ h1 h2 ht hidx
    rw [P0.getVar]
    simp only [h1, Bind.bind, Except.bind]
    rw [if_neg ht]
    simp [h2, Bind.bind, Except.bind, hidx]
  · intro buf w ref o o₁ o₂ q h1 h2
    constructor
    · rw [P0.getVar]
      simp [h1, Bind.bind, Except.bind, h2]
    · rw [rf32] at h2
      split at h2
      · cases h2; rfl
      · cases h2
  · intro buf w ref o t idx o₁ o₂ h1 h2 ht hidx
    rw [P0.getVar]
    simp only [h1, Bind.bind, Except.bind]
    rcases ht with h | h <;> subst h <;> simp [h2, Bind.bind, Except.bind, hidx]

/-- C5 witness: concrete buffers exercising every branch of the resolver —
an entity-scope slot read, an out-of-range index, an immediate float, and
the dynamic and door tags. -/
theorem c5_variable_resolver_witness :
    P0.getVar (bufOf [2, 1]) { name := [76], arenas := [], vars := [0, 0, 0, 0] }
        (.arenaSelf 0) 0 = .ok ((0 : ℚ), 2) ∧
    P0.getVar (bufOf [0, 9]) { name := [76], arenas := [], vars := [0, 0, 0, 0] }
        (.arenaSelf 0) 0 = .error (.assertFail "assert failed") ∧
    P0.getVar (bufOf [3, 0, 0, 0, 0]) { name := [76], arenas := [], vars := [0, 0, 0, 0] }
        (.arenaSelf 0) 0 = .ok (f32ToRat 0, 5) ∧
    P0.getVar (bufOf [4, 1]) { name := [76], arenas := [], vars := [0, 0, 0, 0] }
        (.arenaSelf 0) 0 = .error (.assertFail ("todo var type " ++ toString 4)) ∧
    P0.getVar (bufOf [5, 1]) { name := [76], arenas := [], vars := [0, 0, 0, 0] }
        (.arenaSelf 0) 0 = .error (.assertFail ("todo var type " ++ toString 5)) := by
  refine ⟨?_, ?_, ?_, ?_, ?_⟩
  · exact c5_variable_resolver.1 (bufOf [2, 1])
      { name := [76], arenas := [], vars := [0, 0, 0, 0] } (.arenaSelf 0) 0 2 1 1 2
      rfl rfl (by simp) (by decide)
  · exact c5_variable_resolver.2.1 (bufOf [0, 9])
      { name := [76], arenas := [], vars := [0, 0, 0, 0] } (.arenaSelf 0) 0 0 9 1 2
      rfl rfl (by decide) (by decide)
  · exact (c5_variable_resolver.2.2.1 (bufOf [3, 0, 0, 0, 0])
      { name := [76], arenas := [], vars := [0, 0, 0, 0] } (.arenaSelf 0) 0 1 5 (f32ToRat 0)
      rfl rfl).1
  · exact c5_variable_resolver.2.2.2 (bufOf [4, 1])
      { name := [76], arenas := [], vars := [0, 0, 0, 0] } (.arenaSelf 0) 0 4 1 1 2
      rfl rfl (by decide) (by decide)
  · exact c5_variable_resolver.2.2.2 (bufOf [5, 1])
      { name := [76], arenas := [], vars := [0, 0, 0, 0] } (.arenaSelf 0) 0 5 1 1 2
      rfl rfl (by decide) (by decide)

/-- C6: when the delay opcode (0x40) executes, the entity stores as its
resume offset the cursor immediately past the delay operands (the cursor
after the variable resolver returned) together with the resolved delay, and
yields (continue = false); and on a later invocation with a nonzero stored
resume offset and a delay counter at zero or below, decoding resumes
exactly at the stored offset — the first instruction offset decoded in that
invocation is the stored offset, not the delay opcode. -/
theorem c6_delay_stores_and_resumes :
    (∀ (buf : Buf) (fuel : Nat) (w w' : P0.Level) (ref : P0.ERef) (off o₁ o₂ o' : Nat)
      (q : ℚ) (c : Bool),
      P0.ValidRef w ref →
      ru8 buf off = .ok (0x40, o₁) →
      P0.getVar buf w ref o₁ = .ok (q, o₂) →
      P0.executeOpcode buf (fuel + 1) w ref off = .ok (w', o', c) →
      c = false ∧ o' = o₂ ∧ (P0.getEnt w' ref).scriptOffsetAfterDelay = o₂ ∧
        (P0.getEnt w' ref).scriptDelay = q) ∧
    (∀ (buf : Buf) (fuel : Nat) (w w' : P0.Level) (ref : P0.ERef) (r : Nat) (tr : List Nat),
      (P0.getEnt w ref).scriptOffsetAfterDelay = r → r ≠ 0 →
      ¬ (P0.getEnt w ref).scriptDelay > 0 →
      P0.executeScript buf (fuel + 1) w ref = .ok (w', tr) →
      ∃ rest, tr = r :: rest) := by
  constructor
  · intro buf fuel w w' ref off o₁ o₂ o' q c hv h1 hg h2
    rw [P0.executeOpcode] at h2
    simp only [h1, P0.liftR, Bind.bind, Except.bind] at h2
    rw [hg] at h2
    simp only [P0.liftR] at h2
    cases h2
    refine ⟨rfl, rfl, ?_, ?_⟩ <;>
      rw [P0.getEnt_setEnt_self hv] <;> simp [P0.logE]
  · intro buf fuel w w' ref r tr hr hr0 hd h4
    rw [P0.executeScript] at h4
    simp only [hr, if_pos hr0, if_neg hd, if_neg hr0] at h4
    rcases fuel with _ | f
    · rw [P0.execLoop] at h4; cases h4
    · rw [P0.execLoop] at h4
      rcases hop : P0.executeOpcode buf f
          (P0.setEnt w ref fun x => { x with scriptOffsetAfterDelay := 0 }) ref r with er | t <;>
        rw [hop] at h4 <;> simp only [Bind.bind, Except.bind] at h4
      · cases h4
      · rcases t with ⟨w₁, o₁, cont⟩
        cases cont with
        | true =>
          simp only [if_pos] at h4
          rcases hrec : P0.execLoop buf f w₁ ref o₁ with er | p <;> rw [hrec] at h4
          · cases h4
          · cases h4
            exact ⟨p.2, rfl⟩
        | false =>
          simp only [Bool.false_eq_true, if_false] at h4
          cases h4
          exact ⟨[], rfl⟩

/-- C6 witness: a delay opcode with a level-scope zero delay stores resume
offset 3 (just past the two operand bytes) and yields; and an entity whose
stored resume offset is 5 with delay 0 resumes decoding at offset 5. -/
theorem c6_delay_stores_and_resumes_witness :
    (P0.executeOpcode (bufOf [0x40, 0, 0]) 1
        { name := [76],
          arenas := [{ ent := P0.mkEnt [65] 0 (0, 0, 0) 0, dataOffset := 0,
                       setupOffsets := [], entities := [],
                       arenaVariables := [0, 0, 0, 0] }],
          vars := [0, 0, 0, 0] } (.arenaSelf 0) 0).map (fun p => (p.2.1, p.2.2)) =
      .ok (3, false) ∧
    (∃ rest, ([5] : List Nat) = 5 :: rest) :=
  ⟨rfl,
    c6_delay_stores_and_resumes.2 (bufOf [0xFF, 0, 0, 0, 0, 0xFF]) 2
      { name := [76],
        arenas := [{ ent := { P0.mkEnt [65] 0 (0, 0, 0) 0 with scriptOffsetAfterDelay := 5 },
                     dataOffset := 0, setupOffsets := [], entities := [],
                     arenaVariables := [0, 0, 0, 0] }],
        vars := [0, 0, 0, 0] }
      { name := [76],
        arenas := [{ ent := { P0.mkEnt [65] 0 (0, 0, 0) 0 with
                                scriptOffsetAfterDelay := 0,
                                log := [.init [65] 0 (0, 0, 0) 0 none,
                                  .line 5 0xFF .finishedScript] },
                     dataOffset := 0, setupOffsets := [], entities := [],
                     arenaVariables := [0, 0, 0, 0] }],
        vars := [0, 0, 0, 0] }
      (.arenaSelf 0) 5 [5] rfl (by decide) (by decide) rfl⟩

/-- C3: an opcode byte with no dedicated case (an unknown opcode) is fatal
only to the script of the current entity: `executeOpcode` returns normally
(no exception) with the event logged on that entity and its script cursor
cleared (Terminated); a whole `executeScript` invocation hitting it also
returns normally; and the pass loop, after any successful visit, continues
with the remaining sibling entities. -/
theorem c3_unknown_opcode_isolated :
    (∀ (buf : Buf) (fuel : Nat) (w : P0.Level) (ref : P0.ERef) (off b o₁ : Nat),
      ru8 buf off = .ok (b, o₁) → b ∉ P0.handledOpcodes →
      P0.executeOpcode buf (fuel + 1) w ref off =
        .ok (P0.setEnt w ref (fun e => P0.logE off b .unknownOpcode { e with scriptOffset := 0 }),
          o₁, false)) ∧
    (∀ (buf : Buf) (fuel : Nat) (w : P0.Level) (ref : P0.ERef) (off b o₁ : Nat),
      (P0.getEnt w ref).scriptOffsetAfterDelay = 0 → (P0.getEnt w ref).scriptOffset = off →
      off ≠ 0 → ru8 buf off = .ok (b, o₁) → b ∉ P0.handledOpcodes →
      P0.executeScript buf (fuel + 3) w ref =
        .ok (P0.setEnt w ref (fun e => P0.logE off b .unknownOpcode { e with scriptOffset := 0 }),
          [off])) ∧
    (∀ (func : P0.Level → P0.ERef → Except (RErr × P0.Level) P0.Level) (fuel : Nat)
      (w w₁ : P0.Level) (a i : Nat),
      i < (P0.getArena w a).entities.length → func w (.ent a i) = .ok w₁ →
      P0.arenaForAllLoop func (fuel + 1) w a i =
        (P0.arenaForAllLoop func fuel w₁ a (i + 1)).map (fun p => (p.1, .ent a i :: p.2))) := by
  have part1 : ∀ (buf : Buf) (fuel : Nat) (w : P0.Level) (ref : P0.ERef) (off b o₁ : Nat),
      ru8 buf off = .ok (b, o₁) → b ∉ P0.handledOpcodes →
      P0.executeOpcode buf (fuel + 1) w ref off =
        .ok (P0.setEnt w ref (fun e => P0.logE off b .unknownOpcode { e with scriptOffset := 0 }),
          o₁, false) := by
    intro buf fuel w ref off b o₁ h1 hb
    simp only [P0.handledOpcodes, List.mem_cons, List.not_mem_nil, or_false, not_or] at hb
    obtain ⟨n01, n0B, n09, n10, n3B, n40, n49, n74, n95, n96, n97, n98, n99, nA1, nE6, nFF⟩ := hb
    rw [P0.executeOpcode]
    simp only [h1, P0.liftR, Bind.bind, Except.bind, if_neg n01, if_neg n0B, if_neg n09,
      if_neg n10, if_neg n3B, if_neg n40, if_neg n49, if_neg n74, if_neg n95, if_neg n96,
      if_neg n97, if_neg n98, if_neg n99, if_neg nA1, if_neg nE6, if_neg nFF]
  refine ⟨part1, ?_, ?_⟩
  · intro buf fuel w ref off b o₁ hAD hSO hoff h1 hb
    rw [P0.executeScript]
    simp only [hAD, ne_eq, not_true_eq_false, if_false, hSO, if_neg hoff]
    rw [P0.execLoop, part1 buf fuel w ref off b o₁ h1 hb]
    simp [Bind.bind, Except.bind]
  · intro func fuel w w₁ a i hi hfunc
    rw [P0.arenaForAllLoop]
    simp only [if_pos hi, hfunc, Bind.bind, Except.bind]
    rcases hr : P0.arenaForAllLoop func fuel w₁ a (i + 1) with er | p <;>
      simp [hr, Except.map]

/-- C3 witness: an unknown opcode byte (0x02) logged and terminating only
the current entity; a whole script invocation over it returning normally;
and a pass loop step continuing past a successfully visited entity. -/
theorem c3_unknown_opcode_isolated_witness :
    P0.executeOpcode (bufOf [2]) 1
        { name := [76],
          arenas := [{ ent := P0.mkEnt [65] 0 (0, 0, 0) 0, dataOffset := 0,
                       setupOffsets := [], entities := [],
                       arenaVariables := [0, 0, 0, 0] }],
          vars := [0, 0, 0, 0] } (.arenaSelf 0) 0 =
      .ok (P0.setEnt
        { name := [76],
          arenas := [{ ent := P0.mkEnt [65] 0 (0, 0, 0) 0, dataOffset := 0,
                       setupOffsets := [], entities := [],
                       arenaVariables := [0, 0, 0, 0] }],
          vars := [0, 0, 0, 0] } (.arenaSelf 0)
        (fun e => P0.logE 0 2 .unknownOpcode { e with scriptOffset := 0 }), 1, false) ∧
    P0.executeScript (bufOf [0, 2]) 3
        { name := [76],
          arenas := [{ ent := { P0.mkEnt [65] 0 (0, 0, 0) 0 with scriptOffset := 1 },
                       dataOffset := 0, setupOffsets := [], entities := [],
                       arenaVariables := [0, 0, 0, 0] }],
          vars := [0, 0, 0, 0] } (.arenaSelf 0) =
      .ok (P0.setEnt
        { name := [76],
          arenas := [{ ent := { P0.mkEnt [65] 0 (0, 0, 0) 0 with scriptOffset := 1 },
                       dataOffset := 0, setupOffsets := [], entities := [],
                       arenaVariables := [0, 0, 0, 0] }],
          vars := [0, 0, 0, 0] } (.arenaSelf 0)
        (fun e => P0.logE 1 2 .unknownOpcode { e with scriptOffset := 0 }), [1]) ∧
    P0.arenaForAllLoop (fun u _ => .ok u) 1
        { name := [76],
          arenas := [{ ent := P0.mkEnt [65] 0 (0, 0, 0) 0, dataOffset := 0,
                       setupOffsets := [], entities := [P0.mkEnt [66] 1 (0, 0, 0) 0],
                       arenaVariables := [0, 0, 0, 0] }],
          vars := [0, 0, 0, 0] } 0 0 =
      (P0.arenaForAllLoop (fun u _ => .ok u) 0
        { name := [76],
          arenas := [{ ent := P0.mkEnt [65] 0 (0, 0, 0) 0, dataOffset := 0,
                       setupOffsets := [], entities := [P0.mkEnt [66] 1 (0, 0, 0) 0],
                       arenaVariables := [0, 0, 0, 0] }],
          vars := [0, 0, 0, 0] } 0 1).map (fun p => (p.1, .ent 0 0 :: p.2)) :=
  ⟨c3_unknown_opcode_isolated.1 (bufOf [2]) 0 _ (.arenaSelf 0) 0 2 1 rfl (by decide),
   c3_unknown_opcode_isolated.2.1 (bufOf [0, 2]) 0 _ (.arenaSelf 0) 1 2 2 rfl rfl
     (by decide) rfl (by decide),
   c3_unknown_opcode_isolated.2.2 (fun u _ => .ok u) 0 _ _ 0 0 (by decide) rfl⟩

namespace P0

lemma set_last {α : Type} : ∀ (l : List α) (x y : α), (l ++ [x]).set l.length y = l ++ [y] := by
  intro l
  induction l with
  | nil => intro x y; rfl
  | cons a rest ih => intro x y; simp [List.set, ih]

lemma getD_last {α : Type} : ∀ (l : List α) (x d : α), (l ++ [x]).getD l.length d = x := by
  intro l
  induction l with
  | nil => intro x d; rfl
  | cons a rest ih => intro x d; simpa using ih x d

lemma arenas_length_setArena {w : Level} {a : Nat} {f : Arena → Arena} :
    (setArena w a f).arenas.length = w.arenas.length := by
  simp [setArena]

lemma arenas_length_setEnt {w : Level} {ref : ERef} {f : Ent → Ent} :
    (setEnt w ref f).arenas.length = w.arenas.length := by
  cases ref <;> simp [setEnt, arenas_length_setArena]

lemma arenas_length_pushEnt {w : Level} {a : Nat} {e : Ent} :
    (pushEnt w a e).arenas.length = w.arenas.length := by
  simp [pushEnt, arenas_length_setArena]

lemma setupOffsets_setArena_entsOnly {w : Level} {a a' : Nat} {f : Arena → Arena}
    (hf : ∀ ar, (f ar).setupOffsets = ar.setupOffsets) :
    (getArena (setArena w a f) a').setupOffsets = (getArena w a').setupOffsets := by
  by_cases h : a = a'
  · subst h
    by_cases hl : a < w.arenas.length
    · rw [getArena_setArena_self hl, hf]
    · simp only [getArena, setArena]
      rw [List.set_eq_of_length_le (by omega)]
  · rw [getArena_setArena_ne h]

lemma setupOffsets_setEnt {w : Level} {ref : ERef} {f : Ent → Ent} {a : Nat} :
    (getArena (setEnt w ref f) a).setupOffsets = (getArena w a).setupOffsets := by
  cases ref <;> exact setupOffsets_setArena_entsOnly (fun ar => rfl)

lemma entities_setEnt_arenaSelf {w : Level} {a' a : Nat} {f : Ent → Ent} :
    (getArena (setEnt w (.arenaSelf a') f) a).entities = (getArena w a).entities := by
  simp only [setEnt]
  by_cases h : a' = a
  · subst h
    by_cases hl : a' < w.arenas.length
    · rw [getArena_setArena_self hl]
    · simp only [getArena, setArena]
      rw [List.set_eq_of_length_le (by omega)]
  · rw [getArena_setArena_ne h]

lemma entities_setEnt_ent {w : Level} {a' i : Nat} {f : Ent → Ent} {a : Nat} :
    (getArena (setEnt w (.ent a' i) f) a).entities.length = (getArena w a).entities.length := by
  simp only [setEnt]
  by_cases h : a' = a
  · subst h
    by_cases hl : a' < w.arenas.length
    · rw [getArena_setArena_self hl]; simp
    · simp only [getArena, setArena]
      rw [List.set_eq_of_length_le (by omega)]
  · rw [getArena_setArena_ne h]

lemma entities_length_setEnt {w : Level} {ref : ERef} {f : Ent → Ent} {a : Nat} :
    (getArena (setEnt w ref f) a).entities.length = (getArena w a).entities.length := by
  cases ref with
  | arenaSelf a' => rw [entities_setEnt_arenaSelf]
  | ent a' i => exact entities_setEnt_ent

lemma entities_pushEnt {w : Level} {a : Nat} {e : Ent} (h : a < w.arenas.length) :
    (getArena (pushEnt w a e) a).entities = (getArena w a).entities ++ [e] := by
  simp only [pushEnt]
  rw [getArena_setArena_self h]

lemma entities_setEnt_ent_eq {w : Level} {a i : Nat} {f : Ent → Ent} (h : a < w.arenas.length) :
    (getArena (setEnt w (.ent a i) f) a).entities =
      (getArena w a).entities.set i (f ((getArena w a).entities.getD i dummyEnt)) := by
  simp only [setEnt]
  rw [getArena_setArena_self h]

lemma findArenaAux_spec : ∀ (l : List Arena) (i nm_j : Nat) (nm : List Nat),
    findArenaAux l i nm = .ok nm_j →
    i ≤ nm_j ∧ nm_j - i < l.length ∧ (l.getD (nm_j - i) dummyArena).ent.name = nm := by
  intro l
  induction l with
  | nil => intro i j nm h; cases h
  | cons ar rest ih =>
    intro i j nm h
    rw [findArenaAux] at h
    by_cases hn : ar.ent.name = nm
    · rw [if_pos hn] at h
      cases h
      refine ⟨le_refl _, by simp, ?_⟩
      simp [hn]
    · rw [if_neg hn] at h
      obtain ⟨h1, h2, h3⟩ := ih (i + 1) j nm h
      refine ⟨by omega, by simp; omega, ?_⟩
      have hj : j - i = (j - (i + 1)) + 1 := by omega
      rw [hj]
      simpa using h3

lemma findArena_spec {w : Level} {nm : List Nat} {j : Nat} (h : findArena w nm = .ok j) :
    j < w.arenas.length ∧ (getArena w j).ent.name = nm := by
  obtain ⟨_, h2, h3⟩ := findArenaAux_spec w.arenas 0 j nm h
  simp only [Nat.sub_zero] at h2 h3
  exact ⟨h2, h3⟩

lemma findArenaAux_fail : ∀ (l : List Arena) (i : Nat) (nm : List Nat),
    (∀ k, k < l.length → (l.getD k dummyArena).ent.name ≠ nm) →
    findArenaAux l i nm = .error (.assertFail "arena not found") := by
  intro l
  induction l with
  | nil => intro i nm _; rfl
  | cons ar rest ih =>
    intro i nm h
    rw [findArenaAux]
    rw [if_neg (show ar.ent.name ≠ nm by simpa using h 0 (by simp))]
    exact ih (i + 1) nm (fun k hk => by simpa using h (k + 1) (by simpa using hk))

lemma findArena_fail {w : Level} {nm : List Nat}
    (h : ∀ k, k < w.arenas.length → (getArena w k).ent.name ≠ nm) :
    findArena w nm = .error (.assertFail "arena not found") :=
  findArenaAux_fail w.arenas 0 nm h

end P0

/-- C4: executing a spawn-door opcode (0x95) whose target arena name is
found appends exactly one new Door entity to the live list of the issuing
arena (when no setup template exists for the door name), with the door
target stored as the index of that existing arena object in the level (the
model of object identity — not a copy: the arena array is unchanged); when
the name matches no arena, the lookup assert fires and the operation
returns the error with the level unchanged — no entity is created and no
dangling reference exists. -/
theorem c4_spawn_door :
    (∀ (buf : Buf) (fuel : Nat) (w : P0.Level) (ref : P0.ERef)
      (off o₁ o₂ o₃ o₄ o₅ o₆ o₇ : Nat) (pos : ℚ × ℚ × ℚ) (ang : ℚ) (idv : Int)
      (nm tgt : List Nat) (so j : Nat),
      P0.ValidRef w ref →
      ru8 buf off = .ok (0x95, o₁) →
      rvec3 buf o₁ = .ok (pos, o₂) →
      rf32 buf o₂ = .ok (ang, o₃) →
      ri32 buf o₃ = .ok (idv, o₄) →
      rpstr buf o₄ = .ok (nm, o₅) →
      rpstr buf o₅ = .ok (tgt, o₆) →
      ru32 buf o₆ = .ok (so, o₇) →
      P0.findArena w tgt = .ok j →
      (alistGet (P0.getArena w ref.arenaIdx).setupOffsets nm).getD 0 = 0 →
      ∃ w', P0.executeOpcode buf (fuel + 2) w ref off = .ok (w', o₇, true) ∧
        (P0.getArena w' ref.arenaIdx).entities.length =
          (P0.getArena w ref.arenaIdx).entities.length + 1 ∧
        (P0.getArena w' ref.arenaIdx).entities.getD
            (P0.getArena w ref.arenaIdx).entities.length P0.dummyEnt =
          { P0.mkDoor nm idv pos ang j tgt with scriptOffset := so } ∧
        j < w.arenas.length ∧ (P0.getArena w j).ent.name = tgt ∧
        w'.arenas.length = w.arenas.length) ∧
    (∀ (buf : Buf) (fuel : Nat) (w : P0.Level) (ref : P0.ERef)
      (off o₁ o₂ o₃ o₄ o₅ o₆ o₇ : Nat) (pos : ℚ × ℚ × ℚ) (ang : ℚ) (idv : Int)
      (nm tgt : List Nat) (so : Nat),
      ru8 buf off = .ok (0x95, o₁) →
      rvec3 buf o₁ = .ok (pos, o₂) →
      rf32 buf o₂ = .ok (ang, o₃) →
      ri32 buf o₃ = .ok (idv, o₄) →
      rpstr buf o₄ = .ok (nm, o₅) →
      rpstr buf o₅ = .ok (tgt, o₆) →
      ru32 buf o₆ = .ok (so, o₇) →
      (∀ k, k < w.arenas.length → (P0.getArena w k).ent.name ≠ tgt) →
      P0.executeOpcode buf (fuel + 1) w ref off =
        .error (.assertFail "arena not found", w)) := by
  constructor
  · intro buf fuel w ref off o₁ o₂ o₃ o₄ o₅ o₆ o₇ pos ang idv nm tgt so j
      hv h0 hp ha hid hn ht hs hf hset
    obtain ⟨hjlen, hjname⟩ := P0.findArena_spec hf
    have haIdx : ref.arenaIdx < w.arenas.length := by
      cases ref with
      | arenaSelf a => exact hv
      | ent a i => exact hv.1
    set W₁ := P0.setEnt w ref (P0.logE off 0x95 (.spawnDoor pos ang idv nm tgt so)) with hW₁
    set door := P0.mkDoor nm idv pos ang j ((P0.getArena w j).ent.name) with hdoor
    have hlen₁ : ref.arenaIdx < W₁.arenas.length := by
      rw [hW₁, P0.arenas_length_setEnt]
      exact haIdx
    have hlen₂ : ref.arenaIdx < (P0.pushEnt W₁ ref.arenaIdx door).arenas.length := by
      rw [P0.arenas_length_pushEnt]
      exact hlen₁
    have hE : (P0.getArena W₁ ref.arenaIdx).entities.length =
        (P0.getArena w ref.arenaIdx).entities.length := by
      rw [hW₁]
      exact P0.entities_length_setEnt
    have hname : door.name = nm := by rw [hdoor]; rfl
    have hrun : P0.executeOpcode buf (fuel + 2) w ref off = .ok
        (P0.setEnt (P0.pushEnt W₁ ref.arenaIdx door)
          (.ent ref.arenaIdx ((P0.getArena W₁ ref.arenaIdx).entities.length))
          (fun x => { x with scriptOffset := so }), o₇, true) := by
      rw [P0.executeOpcode]
      simp only [h0, hp, ha, hid, hn, ht, hs, hf, P0.liftR, Bind.bind, Except.bind]
      rw [P0.spawnEntity]
      rw [hname]
      have hsetW : (alistGet (P0.getArena W₁ ref.arenaIdx).setupOffsets nm).getD 0 = 0 := by
        rw [hW₁, P0.setupOffsets_setEnt]
        exact hset
      rw [hsetW]
      simp
    refine ⟨_, hrun, ?_, ?_, hjlen, hjname, ?_⟩
    · rw [P0.entities_setEnt_ent_eq hlen₂, List.length_set, P0.entities_pushEnt hlen₁]
      simp [hE]
    · rw [P0.entities_setEnt_ent_eq hlen₂, P0.entities_pushEnt hlen₁, P0.set_last,
        P0.getD_last, ← hE, P0.getD_last, hdoor, hjname]
    · rw [P0.arenas_length_setEnt, P0.arenas_length_pushEnt, hW₁, P0.arenas_length_setEnt]
  · intro buf fuel w ref off o₁ o₂ o₃ o₄ o₅ o₆ o₇ pos ang idv nm tgt so
      h0 hp ha hid hn ht hs hnf
    rw [P0.executeOpcode]
    simp [h0, hp, ha, hid, hn, ht, hs, P0.liftR, Bind.bind, Except.bind,
      P0.findArena_fail hnf]

/-- C4 witness: a two-arena level; a spawn-door instruction naming the
second arena appends exactly one door holding arena index 1, and the same
instruction naming a missing arena fails with the lookup assert and the
unchanged level. -/
theorem c4_spawn_door_witness :
    (∃ w', P0.executeOpcode
        (bufOf ([0x95] ++ List.replicate 12 0 ++ List.replicate 4 0 ++ List.replicate 4 0 ++
          [1, 68] ++ [1, 84] ++ List.replicate 4 0)) 2
        { name := [76],
          arenas := [{ ent := P0.mkEnt [65] 0 (0, 0, 0) 0, dataOffset := 0,
                       setupOffsets := [], entities := [],
                       arenaVariables := [0, 0, 0, 0] },
                     { ent := P0.mkEnt [84] 1 (0, 0, 0) 0, dataOffset := 0,
                       setupOffsets := [], entities := [],
                       arenaVariables := [0, 0, 0, 0] }],
          vars := [0, 0, 0, 0] } (.arenaSelf 0) 0 = .ok (w', 29, true) ∧
      (P0.getArena w' 0).entities.length = 0 + 1 ∧
      (P0.getArena w' 0).entities.getD 0 P0.dummyEnt =
        { P0.mkDoor [68] 0 (f32ToRat 0, f32ToRat 0, f32ToRat 0) (f32ToRat 0) 1 [84] with
            scriptOffset := 0 } ∧
      1 < 2 ∧ ([84] : List Nat) = [84] ∧ w'.arenas.length = 2) ∧
    P0.executeOpcode
        (bufOf ([0x95] ++ List.replicate 12 0 ++ List.replicate 4 0 ++ List.replicate 4 0 ++
          [1, 68] ++ [1, 88] ++ List.replicate 4 0)) 1
        { name := [76],
          arenas := [{ ent := P0.mkEnt [65] 0 (0, 0, 0) 0, dataOffset := 0,
                       setupOffsets := [], entities := [],
                       arenaVariables := [0, 0, 0, 0] },
                     { ent := P0.mkEnt [84] 1 (0, 0, 0) 0, dataOffset := 0,
                       setupOffsets := [], entities := [],
                       arenaVariables := [0, 0, 0, 0] }],
          vars := [0, 0, 0, 0] } (.arenaSelf 0) 0 =
      .error (.assertFail "arena not found",
        { name := [76],
          arenas := [{ ent := P0.mkEnt [65] 0 (0, 0, 0) 0, dataOffset := 0,
                       setupOffsets := [], entities := [],
                       arenaVariables := [0, 0, 0, 0] },
                     { ent := P0.mkEnt [84] 1 (0, 0, 0) 0, dataOffset := 0,
                       setupOffsets := [], entities := [],
                       arenaVariables := [0, 0, 0, 0] }],
          vars := [0, 0, 0, 0] }) := by
  constructor
  · have h := c4_spawn_door.1
      (bufOf ([0x95] ++ List.replicate 12 0 ++ List.replicate 4 0 ++ List.replicate 4 0 ++
        [1, 68] ++ [1, 84] ++ List.replicate 4 0)) 0
      { name := [76],
        arenas := [{ ent := P0.mkEnt [65] 0 (0, 0, 0) 0, dataOffset := 0,
                     setupOffsets := [], entities := [],
                     arenaVariables := [0, 0, 0, 0] },
                   { ent := P0.mkEnt [84] 1 (0, 0, 0) 0, dataOffset := 0,
                     setupOffsets := [], entities := [],
                     arenaVariables := [0, 0, 0, 0] }],
        vars := [0, 0, 0, 0] } (.arenaSelf 0) 0 1 13 17 21 23 25 29
      (f32ToRat 0, f32ToRat 0, f32ToRat 0) (f32ToRat 0) 0 [68] [84] 0 1
      (by show (0 : Nat) < 2; decide) (by rfl) (by rfl) (by rfl) (by rfl) (by rfl)
      (by rfl) (by rfl) (by rfl) (by rfl)
    exact h
  · exact c4_spawn_door.2
      (bufOf ([0x95] ++ List.replicate 12 0 ++ List.replicate 4 0 ++ List.replicate 4 0 ++
        [1, 68] ++ [1, 88] ++ List.replicate 4 0)) 0
      { name := [76],
        arenas := [{ ent := P0.mkEnt [65] 0 (0, 0, 0) 0, dataOffset := 0,
                     setupOffsets := [], entities := [],
                     arenaVariables := [0, 0, 0, 0] },
                   { ent := P0.mkEnt [84] 1 (0, 0, 0) 0, dataOffset := 0,
                     setupOffsets := [], entities := [],
                     arenaVariables := [0, 0, 0, 0] }],
        vars := [0, 0, 0, 0] } (.arenaSelf 0) 0 1 13 17 21 23 25 29
      (f32ToRat 0, f32ToRat 0, f32ToRat 0) (f32ToRat 0) 0 [68] [88] 0
      (by rfl) (by rfl) (by rfl) (by rfl) (by rfl) (by rfl) (by rfl) (by decide)

namespace P0

lemma LevelLe_refl (w : Level) : LevelLe w w :=
  ⟨rfl, fun _ => le_refl _, fun _ => List.prefix_refl _, fun _ _ _ => List.prefix_refl _⟩

lemma LevelLe_trans {w₁ w₂ w₃ : Level} (h1 : LevelLe w₁ w₂) (h2 : LevelLe w₂ w₃) :
    LevelLe w₁ w₃ := by
  refine ⟨h1.1.trans h2.1, fun a => (h1.2.1 a).trans (h2.2.1 a),
    fun a => (h1.2.2.1 a).trans (h2.2.2.1 a), fun a i hi => ?_⟩
  exact (h1.2.2.2 a i hi).trans (h2.2.2.2 a i (lt_of_lt_of_le hi (h1.2.1 a)))

lemma getArena_setArena_cases (w : Level) (a : Nat) (f : Arena → Arena) (a' : Nat) :
    getArena (setArena w a f) a' =
      if a = a' ∧ a < w.arenas.length then f (getArena w a') else getArena w a' := by
  by_cases h1 : a = a'
  · subst h1
    by_cases h2 : a < w.arenas.length
    · rw [getArena_setArena_self h2, if_pos ⟨rfl, h2⟩]
    · rw [if_neg (by tauto)]
      simp only [getArena, setArena]
      rw [List.set_eq_of_length_le (by omega)]
  · rw [getArena_setArena_ne h1, if_neg (by tauto)]

lemma setEnt_le (w : Level) (ref : ERef) (f : Ent → Ent)
    (hlog : ∀ e, ∃ l, (f e).log = e.log ++ l) : LevelLe w (setEnt w ref f) := by
  cases ref with
  | arenaSelf a₀ =>
    refine ⟨(arenas_length_setEnt).symm, fun a => by rw [entities_length_setEnt],
      fun a => ?_, fun a i hi => ?_⟩
    · show (getArena w a).ent.log <+: (getArena (setArena w a₀ _) a).ent.log
      rw [getArena_setArena_cases]
      split
      · obtain ⟨l, hl⟩ := hlog (getArena w a).ent
        exact ⟨l, by simp [hl]⟩
      · exact List.prefix_refl _
    · show _ <+: ((getArena (setArena w a₀ _) a).entities.getD i dummyEnt).log
      rw [getArena_setArena_cases]
      split
      · exact List.prefix_refl _
      · exact List.prefix_refl _
  | ent a₀ i₀ =>
    refine ⟨(arenas_length_setEnt).symm, fun a => by rw [entities_length_setEnt],
      fun a => ?_, fun a i hi => ?_⟩
    · show _ <+: (getArena (setArena w a₀ _) a).ent.log
      rw [getArena_setArena_cases]
      split
      · exact List.prefix_refl _
      · exact List.prefix_refl _
    · show _ <+: ((getArena (setArena w a₀ _) a).entities.getD i dummyEnt).log
      rw [getArena_setArena_cases]
      split
      · next hcond =>
        obtain ⟨ha, _⟩ := hcond
        subst ha
        by_cases hii : i₀ = i
        · subst hii
          by_cases hlen : i₀ < (getArena w a₀).entities.length
          · show _ <+: (((getArena w a₀).entities.set i₀ _).getD i₀ dummyEnt).log
            rw [getD_set_self _ _ _ _ hlen]
            obtain ⟨l, hl⟩ := hlog ((getArena w a₀).entities.getD i₀ dummyEnt)
            exact ⟨l, hl.symm⟩
          · show _ <+: (((getArena w a₀).entities.set i₀ _).getD i₀ dummyEnt).log
            rw [List.set_eq_of_length_le (by omega)]
        · show _ <+: (((getArena w a₀).entities.set i₀ _).getD i dummyEnt).log
          rw [getD_set_ne _ _ _ _ _ hii]
      · exact List.prefix_refl _

lemma pushEnt_le (w : Level) (a : Nat) (e : Ent) : LevelLe w (pushEnt w a e) := by
  refine ⟨(arenas_length_pushEnt).symm, fun a' => ?_, fun a' => ?_, fun a' i hi => ?_⟩
  · show (getArena w a').entities.length ≤ (getArena (setArena w a _) a').entities.length
    rw [getArena_setArena_cases]
    split
    · simp
    · exact le_refl _
  · show _ <+: (getArena (setArena w a _) a').ent.log
    rw [getArena_setArena_cases]
    split
    · exact List.prefix_refl _
    · exact List.prefix_refl _
  · show _ <+: ((getArena (setArena w a _) a').entities.getD i dummyEnt).log
    rw [getArena_setArena_cases]
    split
    · next hcond =>
      obtain ⟨ha, _⟩ := hcond
      subst ha
      show _ <+: (((getArena w a).entities ++ [e]).getD i dummyEnt).log
      rw [List.getD_append _ _ _ _ hi]
    · exact List.prefix_refl _

end P0

namespace P0

lemma bindE_ok {α β : Type} {x : Except (RErr × Level) α}
    {f : α → Except (RErr × Level) β} {r : β}
    (h : Except.bind x f = .ok r) : ∃ v, x = .ok v ∧ f v = .ok r := by
  cases x with
  | error e => simp [Except.bind] at h
  | ok v => exact ⟨v, rfl, h⟩

lemma liftR_bind_error {α β : Type} (w : Level) (er : RErr)
    {f : α → Except (RErr × Level) β} {r : β} :
    ¬ Bind.bind (liftR w (Except.error er)) f = Except.ok r := by
  intro h
  simp [liftR, Bind.bind, Except.bind] at h

lemma liftR_bindE_error {α β : Type} (w : Level) (er : RErr)
    {f : α → Except (RErr × Level) β} {r : β} :
    ¬ Except.bind (liftR w (Except.error er)) f = Except.ok r := by
  intro h
  simp [liftR, Except.bind] at h

lemma bindB_error {α β : Type} (er : RErr × Level)
    {f : α → Except (RErr × Level) β} {r : β} :
    ¬ Bind.bind (Except.error er) f = Except.ok r := by
  intro h
  simp [Bind.bind, Except.bind] at h

lemma bindE_error {α β : Type} (er : RErr × Level)
    {f : α → Except (RErr × Level) β} {r : β} :
    ¬ Except.bind (Except.error er) f = Except.ok r := by
  intro h
  simp [Except.bind] at h

lemma bindB_ok {α β : Type} {x : Except (RErr × Level) α}
    {f : α → Except (RErr × Level) β} {r : β}
    (h : Bind.bind x f = .ok r) : ∃ v, x = .ok v ∧ f v = .ok r := by
  cases x with
  | error e => simp [Bind.bind, Except.bind] at h
  | ok v => exact ⟨v, rfl, h⟩

lemma liftR_bind_ok {α β : Type} (w : Level) (v : α)
    {f : α → Except (RErr × Level) β} {r : β}
    (h : Bind.bind (liftR w (Except.ok v)) f = Except.ok r) : f v = Except.ok r := h

/-- Log appending of a single entity update: every branch of the opcode
interpreter only appends log lines and never shrinks entity lists, so a
successful step relates the worlds by `LevelLe`. Proved for all four
mutually recursive functions at once by induction on fuel. -/
lemma execMono (fuel : Nat) :
    (∀ buf w ref off r, executeOpcode buf fuel w ref off = .ok r → LevelLe w r.1) ∧
    (∀ buf w ref off r, execLoop buf fuel w ref off = .ok r → LevelLe w r.1) ∧
    (∀ buf w ref r, executeScript buf fuel w ref = .ok r → LevelLe w r.1) ∧
    (∀ buf w a e so w', spawnEntity buf fuel w a e so = .ok w' → LevelLe w w') := by
  induction fuel with
  | zero =>
    refine ⟨?_, ?_, ?_, ?_⟩
    · intro buf w ref off r h
      simp [executeOpcode] at h
    · intro buf w ref off r h
      simp [execLoop] at h
    · intro buf w ref r h
      rw [executeScript] at h
      exact Except.noConfusion h
    · intro buf w a e so w' h
      rw [spawnEntity] at h
      exact Except.noConfusion h
  | succ n ih =>
    obtain ⟨ihOp, ihLoop, ihScript, ihSpawn⟩ := ih
    refine ⟨?_, ?_, ?_, ?_⟩
    · intro buf w ref off r h
      rw [executeOpcode] at h
      rcases h0 : ru8 buf off with er | v0
      · rw [h0] at h
        exact absurd h (liftR_bind_error w er)
      obtain ⟨b, o₁⟩ := v0
      rw [h0] at h
      simp only [liftR, Bind.bind, Except.bind] at h
      by_cases hb1 : b = 0x01
      · rw [if_pos hb1] at h
        cases h
        exact setEnt_le _ _ _ (fun e => ⟨_, rfl⟩)
      rw [if_neg hb1] at h
      by_cases hb2 : b = 0x0B
      · rw [if_pos hb2] at h
        rcases h1 : ru8 buf o₁ with er | ⟨v, o₂⟩
        · rw [h1] at h
          simp at h
        rw [h1] at h
        simp only [liftR, Except.bind] at h
        cases h
        exact setEnt_le _ _ _ (fun e => ⟨_, rfl⟩)
      rw [if_neg hb2] at h
      by_cases hb3 : b = 0x09
      · rw [if_pos hb3] at h
        cases h
        exact setEnt_le _ _ _ (fun e => ⟨_, rfl⟩)
      rw [if_neg hb3] at h
      by_cases hb4 : b = 0x10
      · rw [if_pos hb4] at h
        rcases h1 : ru16 buf o₁ with er | ⟨hv, o₂⟩
        · rw [h1] at h
          simp at h
        rw [h1] at h
        simp only [liftR, Except.bind] at h
        by_cases hz : hv = 0
        · rw [if_pos hz] at h
          cases h
          exact setEnt_le _ _ _ (fun e => ⟨_, rfl⟩)
        rw [if_neg hz] at h
        cases h
        exact setEnt_le _ _ _ (fun e => ⟨_, rfl⟩)
      rw [if_neg hb4] at h
      by_cases hb5 : b = 0x3B
      · rw [if_pos hb5] at h
        rcases h1 : ru32 buf o₁ with er | ⟨ao, o₂⟩
        · rw [h1] at h
          simp at h
        rw [h1] at h
        simp only [liftR, Except.bind] at h
        rcases h2 : ru32 buf ao with er | ⟨num, o₃⟩
        · rw [h2] at h
          simp at h
        rw [h2] at h
        simp only [liftR, Except.bind] at h
        by_cases hz : num = 0
        · rw [if_pos hz] at h
          rcases h3 : rstr buf (ao + 4) 8 with er | ⟨nm, o₄⟩
          · rw [h3] at h
            simp at h
          rw [h3] at h
          simp only [liftR, Except.bind] at h
          cases h
          exact setEnt_le _ _ _ (fun e => ⟨_, rfl⟩)
        rw [if_neg hz] at h
        cases h
        exact setEnt_le _ _ _ (fun e => ⟨_, rfl⟩)
      rw [if_neg hb5] at h
      by_cases hb6 : b = 0x40
      · rw [if_pos hb6] at h
        rcases h1 : getVar buf w ref o₁ with er | ⟨q, o₂⟩
        · rw [h1] at h
          simp at h
        rw [h1] at h
        simp only [liftR, Except.bind] at h
        cases h
        exact setEnt_le _ _ _ (fun e => ⟨_, rfl⟩)
      rw [if_neg hb6] at h
      by_cases hb7 : b = 0x49
      · rw [if_pos hb7] at h
        rcases h1 : ru8 buf o₁ with er | ⟨v, o₂⟩
        · rw [h1] at h
          simp at h
        rw [h1] at h
        simp only [liftR, Except.bind] at h
        cases h
        exact setEnt_le _ _ _ (fun e => ⟨_, rfl⟩)
      rw [if_neg hb7] at h
      by_cases hb8 : b = 0x74
      · rw [if_pos hb8] at h
        rcases h1 : ru32 buf o₁ with er | ⟨fv, o₂⟩
        · rw [h1] at h
          simp at h
        rw [h1] at h
        simp only [liftR, Except.bind] at h
        cases h
        exact setEnt_le _ _ _ (fun e => ⟨_, rfl⟩)
      rw [if_neg hb8] at h
      by_cases hb9 : b = 0x95
      · rw [if_pos hb9] at h
        rcases h1 : rvec3 buf o₁ with er | ⟨pos, o₂⟩
        · rw [h1] at h
          simp at h
        rw [h1] at h
        simp only [liftR, Except.bind] at h
        rcases h2 : rf32 buf o₂ with er | ⟨ang, o₃⟩
        · rw [h2] at h
          simp at h
        rw [h2] at h
        simp only [liftR, Except.bind] at h
        rcases h3 : ri32 buf o₃ with er | ⟨idv, o₄⟩
        · rw [h3] at h
          simp at h
        rw [h3] at h
        simp only [liftR, Except.bind] at h
        rcases h4 : rpstr buf o₄ with er | ⟨nm, o₅⟩
        · rw [h4] at h
          simp at h
        rw [h4] at h
        simp only [liftR, Except.bind] at h
        rcases h5 : rpstr buf o₅ with er | ⟨tgt, o₆⟩
        · rw [h5] at h
          simp at h
        rw [h5] at h
        simp only [liftR, Except.bind] at h
        rcases h6 : ru32 buf o₆ with er | ⟨so, o₇⟩
        · rw [h6] at h
          simp at h
        rw [h6] at h
        simp only [liftR, Except.bind] at h
        rcases h7 : findArena w tgt with er | j
        · rw [h7] at h
          simp at h
        rw [h7] at h
        simp only [liftR, Except.bind] at h
        obtain ⟨w₂, hs, h⟩ := bindE_ok h
        cases h
        exact LevelLe_trans (setEnt_le _ _ _ (fun e => ⟨_, rfl⟩)) (ihSpawn _ _ _ _ _ _ hs)
      rw [if_neg hb9] at h
      by_cases hb10 : b = 0x96
      · rw [if_pos hb10] at h
        obtain ⟨d, hd, h⟩ := bindE_ok h
        rcases h1 : ru32 buf o₁ with er | ⟨u1, o₂⟩
        · rw [h1] at h
          simp at h
        rw [h1] at h
        simp only [liftR, Except.bind] at h
        rcases h2 : ru32 buf o₂ with er | ⟨u2, o₃⟩
        · rw [h2] at h
          simp at h
        rw [h2] at h
        simp only [liftR, Except.bind] at h
        cases h
        exact setEnt_le _ _ _ (fun e => ⟨_, rfl⟩)
      rw [if_neg hb10] at h
      by_cases hb11 : b = 0x97
      · rw [if_pos hb11] at h
        obtain ⟨d, hd, h⟩ := bindE_ok h
        rcases h1 : rpstr buf o₁ with er | ⟨s1, o₂⟩
        · rw [h1] at h
          simp at h
        rw [h1] at h
        simp only [liftR, Except.bind] at h
        rcases h2 : rpstr buf o₂ with er | ⟨s2, o₃⟩
        · rw [h2] at h
          simp at h
        rw [h2] at h
        simp only [liftR, Except.bind] at h
        rcases h3 : rpstr buf o₃ with er | ⟨s3, o₄⟩
        · rw [h3] at h
          simp at h
        rw [h3] at h
        simp only [liftR, Except.bind] at h
        rcases h4 : rpstr buf o₄ with er | ⟨s4, o₅⟩
        · rw [h4] at h
          simp at h
        rw [h4] at h
        simp only [liftR, Except.bind] at h
        cases h
        exact setEnt_le _ _ _ (fun e => ⟨_, rfl⟩)
      rw [if_neg hb11] at h
      by_cases hb12 : b = 0x98
      · rw [if_pos hb12] at h
        obtain ⟨d, hd, h⟩ := bindE_ok h
        rcases h1 : ru32 buf o₁ with er | ⟨fv, o₂⟩
        · rw [h1] at h
          simp at h
        rw [h1] at h
        simp only [liftR, Except.bind] at h
        cases h
        exact setEnt_le _ _ _ (fun e => ⟨_, rfl⟩)
      rw [if_neg hb12] at h
      by_cases hb13 : b = 0x99
      · rw [if_pos hb13] at h
        obtain ⟨d, hd, h⟩ := bindE_ok h
        rcases h1 : rf32 buf o₁ with er | ⟨q, o₂⟩
        · rw [h1] at h
          simp at h
        rw [h1] at h
        simp only [liftR, Except.bind] at h
        cases h
        exact setEnt_le _ _ _ (fun e => ⟨_, rfl⟩)
      rw [if_neg hb13] at h
      by_cases hb14 : b = 0xA1
      · rw [if_pos hb14] at h
        rcases h1 : rvec3 buf o₁ with er | ⟨pos, o₂⟩
        · rw [h1] at h
          simp at h
        rw [h1] at h
        simp only [liftR, Except.bind] at h
        rcases h2 : rpstr buf o₂ with er | ⟨nm, o₃⟩
        · rw [h2] at h
          simp at h
        rw [h2] at h
        simp only [liftR, Except.bind] at h
        rcases h3 : ru32 buf o₃ with er | ⟨so, o₄⟩
        · rw [h3] at h
          simp at h
        rw [h3] at h
        simp only [liftR, Except.bind] at h
        obtain ⟨w₂, hs, h⟩ := bindE_ok h
        cases h
        exact LevelLe_trans (setEnt_le _ _ _ (fun e => ⟨_, rfl⟩)) (ihSpawn _ _ _ _ _ _ hs)
      rw [if_neg hb14] at h
      by_cases hb15 : b = 0xE6
      · rw [if_pos hb15] at h
        rcases h1 : rvec3 buf o₁ with er | ⟨pos, o₂⟩
        · rw [h1] at h
          simp at h
        rw [h1] at h
        simp only [liftR, Except.bind] at h
        rcases h2 : rf32 buf o₂ with er | ⟨ang, o₃⟩
        · rw [h2] at h
          simp at h
        rw [h2] at h
        simp only [liftR, Except.bind] at h
        rcases h3 : ri32 buf o₃ with er | ⟨idv, o₄⟩
        · rw [h3] at h
          simp at h
        rw [h3] at h
        simp only [liftR, Except.bind] at h
        rcases h4 : rpstr buf o₄ with er | ⟨nm, o₅⟩
        · rw [h4] at h
          simp at h
        rw [h4] at h
        simp only [liftR, Except.bind] at h
        rcases h5 : ru32 buf o₅ with er | ⟨so, o₆⟩
        · rw [h5] at h
          simp at h
        rw [h5] at h
        simp only [liftR, Except.bind] at h
        obtain ⟨w₂, hs, h⟩ := bindE_ok h
        cases h
        exact LevelLe_trans (setEnt_le _ _ _ (fun e => ⟨_, rfl⟩)) (ihSpawn _ _ _ _ _ _ hs)
      rw [if_neg hb15] at h
      by_cases hb16 : b = 0xFF
      · rw [if_pos hb16] at h
        cases h
        exact setEnt_le _ _ _ (fun e => ⟨_, rfl⟩)
      rw [if_neg hb16] at h
      cases h
      exact setEnt_le _ _ _ (fun e => ⟨_, rfl⟩)
    · intro buf w ref off r h
      rw [execLoop] at h
      rcases ho : executeOpcode buf n w ref off with er | ⟨w₁, o₁, cont⟩
      · rw [ho] at h
        exact absurd h (bindB_error er)
      rw [ho] at h
      simp only [Bind.bind, Except.bind] at h
      have hw₁ : LevelLe w w₁ := ihOp _ _ _ _ _ ho
      cases cont
      · simp only [Bool.false_eq_true, if_false] at h
        cases h
        exact hw₁
      · rw [if_pos rfl] at h
        rcases hl : execLoop buf n w₁ ref o₁ with er | ⟨w₂, tr⟩
        · rw [hl] at h
          simp at h
        rw [hl] at h
        simp only [Except.bind] at h
        cases h
        exact LevelLe_trans hw₁ (ihLoop _ _ _ _ (w₂, tr) hl)
    · intro buf w ref r h
      rw [executeScript] at h
      split at h
      · split at h
        · cases h
          exact LevelLe_refl w
        · simp only [] at h
          split at h
          · cases h
            exact setEnt_le _ _ _ (fun x => ⟨[], by simp⟩)
          · exact LevelLe_trans (setEnt_le _ _ _ (fun x => ⟨[], by simp⟩))
              (ihLoop _ _ _ _ _ h)
      · split at h
        · cases h
          exact LevelLe_refl w
        · exact ihLoop _ _ _ _ _ h
    · intro buf w a e so w' h
      rw [spawnEntity] at h
      split at h
      · obtain ⟨⟨w₄, tr⟩, hx, h⟩ := bindB_ok h
        simp only [] at h
        cases h
        refine LevelLe_trans (pushEnt_le w a e) (LevelLe_trans
          (setEnt_le _ _ _ (fun x => ⟨[], by simp⟩)) (LevelLe_trans
          (setEnt_le _ _ _ (fun x => ⟨[.runningSetup], rfl⟩)) (LevelLe_trans
          (ihScript _ _ _ _ hx) (LevelLe_trans
          (setEnt_le _ _ _ (fun x => ⟨[.setupComplete], rfl⟩))
          (setEnt_le _ _ _ (fun x => ⟨[], by simp⟩))))))
      · cases h
        exact LevelLe_trans (pushEnt_le w a e)
          (setEnt_le _ _ _ (fun x => ⟨[], by simp⟩))

/-- Successful script execution only grows the level. -/
lemma executeScript_le {buf : Buf} {fuel : Nat} {w : Level} {ref : ERef}
    {r : Level × List Nat} (h : executeScript buf fuel w ref = .ok r) : LevelLe w r.1 :=
  (execMono fuel).2.2.1 _ _ _ _ h

/-- Successful spawning only grows the level. -/
lemma spawnEntity_le {buf : Buf} {fuel : Nat} {w : Level} {a : Nat} {e : Ent}
    {so : Nat} {w' : Level} (h : spawnEntity buf fuel w a e so = .ok w') : LevelLe w w' :=
  (execMono fuel).2.2.2 _ _ _ _ _ _ h

end P0

namespace P0

/-- The tick callback only grows the level. -/
lemma tickFun_le {buf : Buf} {fuel : Nat} {u : Level} {ref : ERef} {u' : Level}
    (h : tickFun buf fuel u ref = .ok u') : LevelLe u u' := by
  simp only [tickFun] at h
  rcases hx : executeScript buf fuel
      (setEnt u ref (fun e => { e with scriptDelay := max 0 (e.scriptDelay - 1 / 2) })) ref
    with er | s
  · rw [hx] at h
    simp [Except.map] at h
  rw [hx] at h
  simp only [Except.map] at h
  cases h
  exact LevelLe_trans (setEnt_le _ _ _ (fun x => ⟨[], by simp⟩)) (executeScript_le hx)

/-- A pass over an entity list with a growing callback only grows the level. -/
lemma arenaForAllLoop_le {func : Level → ERef → Except (RErr × Level) Level}
    (hmono : ∀ u ref u', func u ref = .ok u' → LevelLe u u') :
    ∀ (fuel : Nat) (w : Level) (a i : Nat) (p : Level × List ERef),
      arenaForAllLoop func fuel w a i = .ok p → LevelLe w p.1 := by
  intro fuel
  induction fuel with
  | zero =>
    intro w a i p h
    rw [arenaForAllLoop] at h
    exact Except.noConfusion h
  | succ n ih =>
    intro w a i p h
    rw [arenaForAllLoop] at h
    split at h
    · rcases hf : func w (.ent a i) with er | w₁
      · rw [hf] at h
        simp [Bind.bind, Except.bind] at h
      rw [hf] at h
      simp only [Bind.bind, Except.bind] at h
      rcases hr : arenaForAllLoop func n w₁ a (i + 1) with er | ⟨w₂, tr⟩
      · rw [hr] at h
        simp at h
      rw [hr] at h
      simp only [Except.bind] at h
      cases h
      exact LevelLe_trans (hmono _ _ _ hf) (ih w₁ a (i + 1) (w₂, tr) hr)
    · cases h
      exact LevelLe_refl w

/-- The visit trace of a pass started at index `i`: exactly the indices
from `i` up to the final length of the list, in order — entities appended
during the pass are visited after the pre-existing ones. -/
lemma arenaForAllLoop_trace {func : Level → ERef → Except (RErr × Level) Level}
    (hmono : ∀ u ref u', func u ref = .ok u' → LevelLe u u') :
    ∀ (fuel : Nat) (w : Level) (a i : Nat) (p : Level × List ERef),
      arenaForAllLoop func fuel w a i = .ok p →
      p.2 = (List.range' i ((getArena p.1 a).entities.length - i)).map (ERef.ent a) := by
  intro fuel
  induction fuel with
  | zero =>
    intro w a i p h
    rw [arenaForAllLoop] at h
    exact Except.noConfusion h
  | succ n ih =>
    intro w a i p h
    rw [arenaForAllLoop] at h
    split at h
    · next hi =>
      rcases hf : func w (.ent a i) with er | w₁
      · rw [hf] at h
        simp [Bind.bind, Except.bind] at h
      rw [hf] at h
      simp only [Bind.bind, Except.bind] at h
      rcases hr : arenaForAllLoop func n w₁ a (i + 1) with er | ⟨w₂, tr⟩
      · rw [hr] at h
        simp at h
      rw [hr] at h
      simp only [Except.bind] at h
      cases h
      have htr := ih w₁ a (i + 1) (w₂, tr) hr
      have hle1 : LevelLe w w₁ := hmono _ _ _ hf
      have hle2 : LevelLe w₁ w₂ := arenaForAllLoop_le hmono n w₁ a (i + 1) (w₂, tr) hr
      have hlen : i < (getArena w₂ a).entities.length :=
        lt_of_lt_of_le (lt_of_lt_of_le hi (hle1.2.1 a)) (hle2.2.1 a)
      simp only [] at htr
      have hsub : (getArena w₂ a).entities.length - i =
          ((getArena w₂ a).entities.length - (i + 1)) + 1 := by omega
      show ERef.ent a i :: tr =
        List.map (ERef.ent a) (List.range' i ((getArena w₂ a).entities.length - i))
      rw [htr, hsub]
      simp [List.range']
    · next hi =>
      cases h
      simp [Nat.sub_eq_zero_of_le (le_of_not_lt hi)]

end P0

/-- C9: loading is deterministic — the entry point is a pure function of the
CMI bytes and the collaborator records, so two successful loads of identical
inputs produce byte-for-byte identical per-entity trace logs. -/
theorem c9_load_deterministic (fuel : Nat) (buf : Buf) (ents : List P0.BspEntity)
    (l₁ l₂ : P0.Level) (h₁ : P0.goP0 fuel buf ents = .ok l₁)
    (h₂ : P0.goP0 fuel buf ents = .ok l₂) : P0.allLogs l₁ = P0.allLogs l₂ := by
  rw [h₁] at h₂
  cases h₂
  rfl

theorem c9_load_deterministic_witness :
    P0.goP0 3 (bufOf ([65] ++ List.replicate 11 0 ++ [9, 9, 9, 9] ++ List.replicate 16 0)) [] =
      .ok { name := [65], arenas := [], vars := [0, 0, 0, 0] } ∧
    P0.allLogs { name := [65], arenas := [], vars := [0, 0, 0, 0] } =
      P0.allLogs { name := [65], arenas := [], vars := [0, 0, 0, 0] } :=
  ⟨rfl, c9_load_deterministic 3
    (bufOf ([65] ++ List.replicate 11 0 ++ [9, 9, 9, 9] ++ List.replicate 16 0)) [] _ _
    (by rfl) (by rfl)⟩

/-- C10: an entity spawned mid-pass is appended to the very list being
iterated (a no-setup spawn appends exactly the new entity with its runtime
offset) and the pass visits exactly the indices from the start up to the
final length of the list in insertion order, so mid-pass spawns are visited
later within the same pass. -/
theorem c10_spawned_visited :
    (∀ (buf : Buf) (fuel : Nat) (w : P0.Level) (a : Nat) (e : P0.Ent) (so : Nat),
      a < w.arenas.length →
      (alistGet (P0.getArena w a).setupOffsets e.name).getD 0 = 0 →
      ∃ w', P0.spawnEntity buf (fuel + 1) w a e so = .ok w' ∧
        (P0.getArena w' a).entities =
          (P0.getArena w a).entities ++ [{ e with scriptOffset := so }]) ∧
    (∀ (func : P0.Level → P0.ERef → Except (RErr × P0.Level) P0.Level),
      (∀ u ref u', func u ref = .ok u' → P0.LevelLe u u') →
      ∀ (fuel : Nat) (w : P0.Level) (a : Nat) (p : P0.Level × List P0.ERef),
        P0.arenaForAllLoop func fuel w a 0 = .ok p →
        p.2 = (List.range (P0.getArena p.1 a).entities.length).map (P0.ERef.ent a)) := by
  constructor
  · intro buf fuel w a e so ha hs
    refine ⟨P0.setEnt (P0.pushEnt w a e)
      (.ent a (P0.getArena w a).entities.length) (fun x => { x with scriptOffset := so }),
      ?_, ?_⟩
    · simp only [P0.spawnEntity]
      rw [if_neg (by simpa using hs)]
    · rw [P0.entities_setEnt_ent_eq (by rw [P0.arenas_length_pushEnt]; exact ha)]
      rw [P0.entities_pushEnt ha, P0.getD_last, P0.set_last]
  · intro func hmono fuel w a p h
    simpa [List.range_eq_range'] using P0.arenaForAllLoop_trace hmono fuel w a 0 p h

theorem c10_spawned_visited_witness :
    ∃ p, P0.arenaForAllLoop
        (P0.tickFun (bufOf ([0xFF, 0xA1] ++ List.replicate 12 0 ++ [1, 66] ++
          [0, 0, 0, 0] ++ [0xFF])) 9) 9
        { name := [65],
          arenas := [{ ent := P0.mkEnt [65] 0 (0, 0, 0) 0,
                       dataOffset := 1, setupOffsets := [],
                       entities := [{ P0.mkEnt [67] 2 (0, 0, 0) 0 with scriptOffset := 1 }],
                       arenaVariables := [0, 0, 0, 0] }],
          vars := [0, 0, 0, 0] } 0 0 = .ok p ∧
      p.2 = (List.range (P0.getArena p.1 0).entities.length).map (P0.ERef.ent 0) ∧
      p.2 = [P0.ERef.ent 0 0, P0.ERef.ent 0 1] ∧
      ∃ w', P0.spawnEntity (bufOf []) 1
          { name := [65],
            arenas := [{ ent := P0.mkEnt [65] 0 (0, 0, 0) 0,
                         dataOffset := 1, setupOffsets := [],
                         entities := [{ P0.mkEnt [67] 2 (0, 0, 0) 0 with scriptOffset := 1 }],
                         arenaVariables := [0, 0, 0, 0] }],
            vars := [0, 0, 0, 0] } 0 (P0.mkEnt [66] 0 (0, 0, 0) 0) 7 = .ok w' ∧
        (P0.getArena w' 0).entities =
          (P0.getArena
            { name := [65],
              arenas := [{ ent := P0.mkEnt [65] 0 (0, 0, 0) 0,
                           dataOffset := 1, setupOffsets := [],
                           entities := [{ P0.mkEnt [67] 2 (0, 0, 0) 0 with scriptOffset := 1 }],
                           arenaVariables := [0, 0, 0, 0] }],
              vars := [0, 0, 0, 0] } 0).entities ++
            [{ P0.mkEnt [66] 0 (0, 0, 0) 0 with scriptOffset := 7 }] := by
  have hmap : (P0.arenaForAllLoop
      (P0.tickFun (bufOf ([0xFF, 0xA1] ++ List.replicate 12 0 ++ [1, 66] ++
        [0, 0, 0, 0] ++ [0xFF])) 9) 9
      { name := [65],
        arenas := [{ ent := P0.mkEnt [65] 0 (0, 0, 0) 0,
                     dataOffset := 1, setupOffsets := [],
                     entities := [{ P0.mkEnt [67] 2 (0, 0, 0) 0 with scriptOffset := 1 }],
                     arenaVariables := [0, 0, 0, 0] }],
        vars := [0, 0, 0, 0] } 0 0).map (fun p => p.2) =
      .ok [P0.ERef.ent 0 0, P0.ERef.ent 0 1] := by rfl
  rcases hp : P0.arenaForAllLoop
      (P0.tickFun (bufOf ([0xFF, 0xA1] ++ List.replicate 12 0 ++ [1, 66] ++
        [0, 0, 0, 0] ++ [0xFF])) 9) 9
      { name := [65],
        arenas := [{ ent := P0.mkEnt [65] 0 (0, 0, 0) 0,
                     dataOffset := 1, setupOffsets := [],
                     entities := [{ P0.mkEnt [67] 2 (0, 0, 0) 0 with scriptOffset := 1 }],
                     arenaVariables := [0, 0, 0, 0] }],
        vars := [0, 0, 0, 0] } 0 0 with er | p
  · rw [hp] at hmap
    simp [Except.map] at hmap
  · rw [hp] at hmap
    simp only [Except.map, Except.ok.injEq] at hmap
    exact ⟨p, rfl,
      c10_spawned_visited.2 _ (fun u ref u' h => P0.tickFun_le h) 9 _ 0 p hp,
      hmap,
      c10_spawned_visited.1 (bufOf []) 0 _ 0 (P0.mkEnt [66] 0 (0, 0, 0) 0) 7
        (by decide) (by rfl)⟩

namespace P0

lemma getEnt_setEnt_ent_self {w : Level} {a i : Nat} {f : Ent → Ent}
    (ha : a < w.arenas.length) (hi : i < (getArena w a).entities.length) :
    getEnt (setEnt w (.ent a i) f) (.ent a i) = f (getEnt w (.ent a i)) :=
  getEnt_setEnt_self ⟨ha, hi⟩

end P0

/-- C8 counterexample: the spawn-pickup opcode (0xA1) does not read angle
or id operands. A 19-byte instruction (1 opcode + 12 position + 2 name +
4 offset bytes) spawns a pickup whose name is the string that starts
immediately after the position, whose id is 0 and whose angle is 0, and
execution resumes at offset 19 — there is no angle or id field in the
encoding, contradicting the claimed common operand layout. -/
theorem c8_counterexample :
    (P0.executeOpcode (bufOf ([0xA1] ++ List.replicate 12 0 ++ [1, 66] ++ [0, 0, 0, 0])) 5
        { name := [65],
          arenas := [{ ent := { P0.mkEnt [65] 0 (0, 0, 0) 0 with scriptOffset := 1 },
                       dataOffset := 1, setupOffsets := [], entities := [],
                       arenaVariables := [0, 0, 0, 0] }],
          vars := [0, 0, 0, 0] } (.arenaSelf 0) 0).map
      (fun p => (p.2.1, p.2.2,
        (P0.getArena p.1 0).entities.map (fun e => (e.name, e.id, e.yawAngle, e.kind)))) =
    .ok (19, true, [([66], 0, 0, P0.EKind.pickup)]) := by rfl

/-- C8 (amended): spawn-entity (0xE6) reads position, angle, id and name
operands; spawn-pickup (0xA1) reads only position and name, and the pickup
is constructed with id 0 and angle 0; both append the new entity with the
runtime script offset read as the final operand when no setup template
exists for its name (the door opcode 0x95 is settled separately in C4);
and on the shared spawn path a nonzero setup template runs the setup
script on the freshly pushed entity before the runtime script offset is
assigned. -/
theorem c8_spawn_operands :
    (∀ (buf : Buf) (fuel : Nat) (w : P0.Level) (ref : P0.ERef)
      (off o₁ o₂ o₃ o₄ o₅ o₆ : Nat) (pos : ℚ × ℚ × ℚ) (ang : ℚ) (idv : Int)
      (nm : List Nat) (so : Nat),
      P0.ValidRef w ref →
      ru8 buf off = .ok (0xE6, o₁) →
      rvec3 buf o₁ = .ok (pos, o₂) →
      rf32 buf o₂ = .ok (ang, o₃) →
      ri32 buf o₃ = .ok (idv, o₄) →
      rpstr buf o₄ = .ok (nm, o₅) →
      ru32 buf o₅ = .ok (so, o₆) →
      (alistGet (P0.getArena w ref.arenaIdx).setupOffsets nm).getD 0 = 0 →
      ∃ w', P0.executeOpcode buf (fuel + 2) w ref off = .ok (w', o₆, true) ∧
        (P0.getArena w' ref.arenaIdx).entities.length =
          (P0.getArena w ref.arenaIdx).entities.length + 1 ∧
        (P0.getArena w' ref.arenaIdx).entities.getD
            (P0.getArena w ref.arenaIdx).entities.length P0.dummyEnt =
          { P0.mkEnt nm idv pos ang with scriptOffset := so } ∧
        w'.arenas.length = w.arenas.length) ∧
    (∀ (buf : Buf) (fuel : Nat) (w : P0.Level) (ref : P0.ERef)
      (off o₁ o₂ o₃ o₄ : Nat) (pos : ℚ × ℚ × ℚ) (nm : List Nat) (so : Nat),
      P0.ValidRef w ref →
      ru8 buf off = .ok (0xA1, o₁) →
      rvec3 buf o₁ = .ok (pos, o₂) →
      rpstr buf o₂ = .ok (nm, o₃) →
      ru32 buf o₃ = .ok (so, o₄) →
      (alistGet (P0.getArena w ref.arenaIdx).setupOffsets nm).getD 0 = 0 →
      ∃ w', P0.executeOpcode buf (fuel + 2) w ref off = .ok (w', o₄, true) ∧
        (P0.getArena w' ref.arenaIdx).entities.length =
          (P0.getArena w ref.arenaIdx).entities.length + 1 ∧
        (P0.getArena w' ref.arenaIdx).entities.getD
            (P0.getArena w ref.arenaIdx).entities.length P0.dummyEnt =
          { P0.mkPickup nm pos with scriptOffset := so } ∧
        ((P0.getArena w' ref.arenaIdx).entities.getD
            (P0.getArena w ref.arenaIdx).entities.length P0.dummyEnt).id = 0 ∧
        ((P0.getArena w' ref.arenaIdx).entities.getD
            (P0.getArena w ref.arenaIdx).entities.length P0.dummyEnt).yawAngle = 0 ∧
        w'.arenas.length = w.arenas.length) ∧
    (∀ (buf : Buf) (fuel : Nat) (w : P0.Level) (a : Nat) (e : P0.Ent) (so : Nat)
      (w' : P0.Level),
      a < w.arenas.length →
      (alistGet (P0.getArena w a).setupOffsets e.name).getD 0 ≠ 0 →
      P0.spawnEntity buf (fuel + 1) w a e so = .ok w' →
      ∃ q : P0.Level × List Nat,
        P0.executeScript buf fuel
          (P0.setEnt
            (P0.setEnt (P0.pushEnt w a e) (.ent a (P0.getArena w a).entities.length)
              (fun x => { x with
                scriptOffset := (alistGet (P0.getArena w a).setupOffsets e.name).getD 0 }))
            (.ent a (P0.getArena w a).entities.length)
            (fun x => { x with log := x.log ++ [.runningSetup] }))
          (.ent a (P0.getArena w a).entities.length) = .ok q ∧
        w' = P0.setEnt
          (P0.setEnt q.1 (.ent a (P0.getArena w a).entities.length)
            (fun x => { x with log := x.log ++ [.setupComplete] }))
          (.ent a (P0.getArena w a).entities.length)
          (fun x => { x with scriptOffset := so }) ∧
        (P0.getEnt w' (.ent a (P0.getArena w a).entities.length)).scriptOffset = so) := by
  refine ⟨?_, ?_, ?_⟩
  · intro buf fuel w ref off o₁ o₂ o₃ o₄ o₅ o₆ pos ang idv nm so hv h0 hp haq hid hn hs hset
    have haIdx : ref.arenaIdx < w.arenas.length := by
      cases ref with
      | arenaSelf a => exact hv
      | ent a i => exact hv.1
    set W₁ := P0.setEnt w ref (P0.logE off 0xE6 (.spawnEnt nm)) with hW₁
    set ent := P0.mkEnt nm idv pos ang with hent
    have hlen₁ : ref.arenaIdx < W₁.arenas.length := by
      rw [hW₁, P0.arenas_length_setEnt]
      exact haIdx
    have hlen₂ : ref.arenaIdx < (P0.pushEnt W₁ ref.arenaIdx ent).arenas.length := by
      rw [P0.arenas_length_pushEnt]
      exact hlen₁
    have hE : (P0.getArena W₁ ref.arenaIdx).entities.length =
        (P0.getArena w ref.arenaIdx).entities.length := by
      rw [hW₁]
      exact P0.entities_length_setEnt
    have hname : ent.name = nm := by rw [hent]; rfl
    have hrun : P0.executeOpcode buf (fuel + 2) w ref off = .ok
        (P0.setEnt (P0.pushEnt W₁ ref.arenaIdx ent)
          (.ent ref.arenaIdx ((P0.getArena W₁ ref.arenaIdx).entities.length))
          (fun x => { x with scriptOffset := so }), o₆, true) := by
      rw [P0.executeOpcode]
      simp only [h0, hp, haq, hid, hn, hs, P0.liftR, Bind.bind, Except.bind]
      rw [P0.spawnEntity]
      rw [hname]
      have hsetW : (alistGet (P0.getArena W₁ ref.arenaIdx).setupOffsets nm).getD 0 = 0 := by
        rw [hW₁, P0.setupOffsets_setEnt]
        exact hset
      rw [hsetW]
      simp
    refine ⟨_, hrun, ?_, ?_, ?_⟩
    · rw [P0.entities_setEnt_ent_eq hlen₂, List.length_set, P0.entities_pushEnt hlen₁]
      simp [hE]
    · rw [P0.entities_setEnt_ent_eq hlen₂, P0.entities_pushEnt hlen₁, P0.set_last,
        P0.getD_last, ← hE, P0.getD_last]
    · rw [P0.arenas_length_setEnt, P0.arenas_length_pushEnt, hW₁, P0.arenas_length_setEnt]
  · intro buf fuel w ref off o₁ o₂ o₃ o₄ pos nm so hv h0 hp hn hs hset
    have haIdx : ref.arenaIdx < w.arenas.length := by
      cases ref with
      | arenaSelf a => exact hv
      | ent a i => exact hv.1
    set W₁ := P0.setEnt w ref (P0.logE off 0xA1 (.spawnPickup nm pos)) with hW₁
    set ent := P0.mkPickup nm pos with hent
    have hlen₁ : ref.arenaIdx < W₁.arenas.length := by
      rw [hW₁, P0.arenas_length_setEnt]
      exact haIdx
    have hlen₂ : ref.arenaIdx < (P0.pushEnt W₁ ref.arenaIdx ent).arenas.length := by
      rw [P0.arenas_length_pushEnt]
      exact hlen₁
    have hE : (P0.getArena W₁ ref.arenaIdx).entities.length =
        (P0.getArena w ref.arenaIdx).entities.length := by
      rw [hW₁]
      exact P0.entities_length_setEnt
    have hname : ent.name = nm := by rw [hent]; rfl
    have hrun : P0.executeOpcode buf (fuel + 2) w ref off = .ok
        (P0.setEnt (P0.pushEnt W₁ ref.arenaIdx ent)
          (.ent ref.arenaIdx ((P0.getArena W₁ ref.arenaIdx).entities.length))
          (fun x => { x with scriptOffset := so }), o₄, true) := by
      rw [P0.executeOpcode]
      simp only [h0, hp, hn, hs, P0.liftR, Bind.bind, Except.bind]
      rw [P0.spawnEntity]
      rw [hname]
      have hsetW : (alistGet (P0.getArena W₁ ref.arenaIdx).setupOffsets nm).getD 0 = 0 := by
        rw [hW₁, P0.setupOffsets_setEnt]
        exact hset
      rw [hsetW]
      simp
    have hgetD : (P0.getArena (P0.setEnt (P0.pushEnt W₁ ref.arenaIdx ent)
          (.ent ref.arenaIdx ((P0.getArena W₁ ref.arenaIdx).entities.length))
          (fun x => { x with scriptOffset := so })) ref.arenaIdx).entities.getD
        (P0.getArena w ref.arenaIdx).entities.length P0.dummyEnt =
        { ent with scriptOffset := so } := by
      rw [P0.entities_setEnt_ent_eq hlen₂, P0.entities_pushEnt hlen₁, P0.set_last,
        P0.getD_last, ← hE, P0.getD_last]
    refine ⟨_, hrun, ?_, hgetD, ?_, ?_, ?_⟩
    · rw [P0.entities_setEnt_ent_eq hlen₂, List.length_set, P0.entities_pushEnt hlen₁]
      simp [hE]
    · rw [hgetD, hent]
      rfl
    · rw [hgetD, hent]
      rfl
    · rw [P0.arenas_length_setEnt, P0.arenas_length_pushEnt, hW₁, P0.arenas_length_setEnt]
  · intro buf fuel w a e so w' ha hset hsp
    simp only [P0.spawnEntity] at hsp
    rw [if_pos hset] at hsp
    obtain ⟨⟨w₄, tr⟩, hx, hsp⟩ := P0.bindB_ok hsp
    cases hsp
    have hq := P0.executeScript_le hx
    simp only [] at hq
    have haX : a < w₄.arenas.length := by
      have h1 := hq.1
      rw [P0.arenas_length_setEnt, P0.arenas_length_setEnt, P0.arenas_length_pushEnt] at h1
      omega
    have hidx : (P0.getArena w a).entities.length < (P0.getArena w₄ a).entities.length := by
      have h2 := hq.2.1 a
      rw [P0.entities_length_setEnt, P0.entities_length_setEnt] at h2
      have h3 : (P0.getArena (P0.pushEnt w a e) a).entities.length =
          (P0.getArena w a).entities.length + 1 := by
        rw [P0.entities_pushEnt ha, List.length_append]
        rfl
      omega
    refine ⟨(w₄, tr), hx, rfl, ?_⟩
    rw [P0.getEnt_setEnt_ent_self (by rw [P0.arenas_length_setEnt]; exact haX)
      (by rw [P0.entities_length_setEnt]; exact hidx)]

theorem c8_spawn_operands_witness :
    (∃ w', P0.executeOpcode
        (bufOf ([0xE6] ++ List.replicate 12 0 ++ List.replicate 4 0 ++ List.replicate 4 0 ++
          [1, 69] ++ List.replicate 4 0)) 2
        { name := [76],
          arenas := [{ ent := P0.mkEnt [65] 0 (0, 0, 0) 0, dataOffset := 0,
                       setupOffsets := [], entities := [],
                       arenaVariables := [0, 0, 0, 0] }],
          vars := [0, 0, 0, 0] } (.arenaSelf 0) 0 = .ok (w', 27, true) ∧
      (P0.getArena w' 0).entities.length = 0 + 1 ∧
      (P0.getArena w' 0).entities.getD 0 P0.dummyEnt =
        { P0.mkEnt [69] 0 (f32ToRat 0, f32ToRat 0, f32ToRat 0) (f32ToRat 0) with
            scriptOffset := 0 } ∧
      w'.arenas.length = 1) ∧
    (∃ w', P0.executeOpcode
        (bufOf ([0xA1] ++ List.replicate 12 0 ++ [1, 80] ++ List.replicate 4 0)) 2
        { name := [76],
          arenas := [{ ent := P0.mkEnt [65] 0 (0, 0, 0) 0, dataOffset := 0,
                       setupOffsets := [], entities := [],
                       arenaVariables := [0, 0, 0, 0] }],
          vars := [0, 0, 0, 0] } (.arenaSelf 0) 0 = .ok (w', 19, true) ∧
      (P0.getArena w' 0).entities.length = 0 + 1 ∧
      (P0.getArena w' 0).entities.getD 0 P0.dummyEnt =
        { P0.mkPickup [80] (f32ToRat 0, f32ToRat 0, f32ToRat 0) with scriptOffset := 0 } ∧
      ((P0.getArena w' 0).entities.getD 0 P0.dummyEnt).id = 0 ∧
      ((P0.getArena w' 0).entities.getD 0 P0.dummyEnt).yawAngle = 0 ∧
      w'.arenas.length = 1) ∧
    (∃ w', P0.spawnEntity (bufOf [0, 0xFF]) 4
        { name := [76],
          arenas := [{ ent := P0.mkEnt [65] 0 (0, 0, 0) 0, dataOffset := 0,
                       setupOffsets := [([66], 1)], entities := [],
                       arenaVariables := [0, 0, 0, 0] }],
          vars := [0, 0, 0, 0] } 0 (P0.mkEnt [66] 0 (0, 0, 0) 0) 5 = .ok w' ∧
      (P0.getEnt w' (.ent 0 0)).scriptOffset = 5) ∧
    (P0.spawnEntity (bufOf [0, 0xFF]) 4
        { name := [76],
          arenas := [{ ent := P0.mkEnt [65] 0 (0, 0, 0) 0, dataOffset := 0,
                       setupOffsets := [([66], 1)], entities := [],
                       arenaVariables := [0, 0, 0, 0] }],
          vars := [0, 0, 0, 0] } 0 (P0.mkEnt [66] 0 (0, 0, 0) 0) 5).map
      (fun u => (P0.getEnt u (.ent 0 0)).log) =
    .ok [.init [66] 0 (0, 0, 0) 0 none, .runningSetup,
      .line 1 0xFF .finishedScript, .setupComplete] := by
  refine ⟨?_, ?_, ?_, ?_⟩
  · exact c8_spawn_operands.1
      (bufOf ([0xE6] ++ List.replicate 12 0 ++ List.replicate 4 0 ++ List.replicate 4 0 ++
        [1, 69] ++ List.replicate 4 0)) 0
      { name := [76],
        arenas := [{ ent := P0.mkEnt [65] 0 (0, 0, 0) 0, dataOffset := 0,
                     setupOffsets := [], entities := [],
                     arenaVariables := [0, 0, 0, 0] }],
        vars := [0, 0, 0, 0] } (.arenaSelf 0) 0 1 13 17 21 23 27
      (f32ToRat 0, f32ToRat 0, f32ToRat 0) (f32ToRat 0) 0 [69] 0
      (by show (0 : Nat) < 1; decide) (by rfl) (by rfl) (by rfl) (by rfl) (by rfl)
      (by rfl) (by rfl)
  · exact c8_spawn_operands.2.1
      (bufOf ([0xA1] ++ List.replicate 12 0 ++ [1, 80] ++ List.replicate 4 0)) 0
      { name := [76],
        arenas := [{ ent := P0.mkEnt [65] 0 (0, 0, 0) 0, dataOffset := 0,
                     setupOffsets := [], entities := [],
                     arenaVariables := [0, 0, 0, 0] }],
        vars := [0, 0, 0, 0] } (.arenaSelf 0) 0 1 13 15 19
      (f32ToRat 0, f32ToRat 0, f32ToRat 0) [80] 0
      (by show (0 : Nat) < 1; decide) (by rfl) (by rfl) (by rfl) (by rfl) (by rfl)
  · rcases hsp : P0.spawnEntity (bufOf [0, 0xFF]) 4
        { name := [76],
          arenas := [{ ent := P0.mkEnt [65] 0 (0, 0, 0) 0, dataOffset := 0,
                       setupOffsets := [([66], 1)], entities := [],
                       arenaVariables := [0, 0, 0, 0] }],
          vars := [0, 0, 0, 0] } 0 (P0.mkEnt [66] 0 (0, 0, 0) 0) 5 with er | w'
    · have hok : (P0.spawnEntity (bufOf [0, 0xFF]) 4
          { name := [76],
            arenas := [{ ent := P0.mkEnt [65] 0 (0, 0, 0) 0, dataOffset := 0,
                         setupOffsets := [([66], 1)], entities := [],
                         arenaVariables := [0, 0, 0, 0] }],
            vars := [0, 0, 0, 0] } 0 (P0.mkEnt [66] 0 (0, 0, 0) 0) 5).map
          (fun _ => true) = .ok true := by rfl
      rw [hsp] at hok
      simp [Except.map] at hok
    · obtain ⟨q, hrun, heq, hso⟩ := c8_spawn_operands.2.2 (bufOf [0, 0xFF]) 3
        { name := [76],
          arenas := [{ ent := P0.mkEnt [65] 0 (0, 0, 0) 0, dataOffset := 0,
                       setupOffsets := [([66], 1)], entities := [],
                       arenaVariables := [0, 0, 0, 0] }],
          vars := [0, 0, 0, 0] } 0 (P0.mkEnt [66] 0 (0, 0, 0) 0) 5 w'
        (by decide) (by decide) hsp
      exact ⟨w', rfl, hso⟩
  · rfl
